import Mathlib

/-!
# Verification of the Ralph loop supervisor (`.ralph/loop.py`)

A shallow embedding of the event normalizer (`parse_json_event`, `handle_event`,
the line-processing step of `run_iteration`) and the iteration-loop controller
(`main`'s `while` loop) of `loop.py`, together with theorems settling the
claims of the specification.

Modelling conventions:
* Parsed JSON values are the inductive type `Json`.  Python's `json.loads`
  parses numbers to `int`/`float`; both are modelled as exact rationals
  (`Json.num`), with `Json.nan` / `Json.inf` for the `NaN`/`Infinity`
  extensions that Python's decoder accepts.  (The claims only involve integer
  numbers, so binary floating-point rounding never matters here.)
* Python code that can raise (attribute errors on `.get` of non-dicts,
  `len()` of numbers, slicing of dicts, unhashable dict keys, `str + non-str`)
  is embedded in `Except String`, so "does not raise" is `.ok`.
* Wall-clock timestamps, the Rich `Live` display, and the on-disk debug log
  are external I/O and carry no information used by any claim; the
  corresponding fields/calls (`timestamp`, `live.update`, `log_raw_output`)
  are omitted from the state model.
-/

set_option maxHeartbeats 1000000
set_option maxRecDepth 8000
set_option linter.unreachableTactic false
set_option linter.unusedTactic false

namespace Ralph

/-- A parsed JSON value, as produced by Python's `json.loads`. -/
inductive Json where
  | null
  | bool (b : Bool)
  | num (q : ℚ)
  | nan
  | inf (neg : Bool)
  | str (s : String)
  | arr (xs : List Json)
  | obj (kvs : List (String × Json))
  deriving Repr

/-- Decidable equality for `Json` (structural). -/
def Json.beq : Json → Json → Bool
  | .null, .null => true
  | .bool a, .bool b => a == b
  | .num a, .num b => a == b
  | .nan, .nan => true
  | .inf a, .inf b => a == b
  | .str a, .str b => a == b
  | .arr a, .arr b => beqList a b
  | .obj a, .obj b => beqObj a b
  | _, _ => false
where
  beqList : List Json → List Json → Bool
    | [], [] => true
    | x :: xs, y :: ys => x.beq y && beqList xs ys
    | _, _ => false
  beqObj : List (String × Json) → List (String × Json) → Bool
    | [], [] => true
    | (k, v) :: xs, (l, w) :: ys => k == l && v.beq w && beqObj xs ys
    | _, _ => false

mutual

theorem Json.beq_correct : ∀ a b : Json, a.beq b = true → a = b
  | .null, .null, _ => rfl
  | .bool _, .bool _, h => by simp only [Json.beq, beq_iff_eq] at h; simp [h]
  | .num _, .num _, h => by simp only [Json.beq, beq_iff_eq] at h; simp [h]
  | .nan, .nan, _ => rfl
  | .inf _, .inf _, h => by simp only [Json.beq, beq_iff_eq] at h; simp [h]
  | .str _, .str _, h => by simp only [Json.beq, beq_iff_eq] at h; simp [h]
  | .arr _, .arr _, h => by
      have := Json.beqList_correct _ _ (by simpa [Json.beq] using h)
      simp [this]
  | .obj _, .obj _, h => by
      have := Json.beqObj_correct _ _ (by simpa [Json.beq] using h)
      simp [this]

theorem Json.beqList_correct : ∀ a b : List Json, Json.beq.beqList a b = true → a = b
  | [], [], _ => rfl
  | x :: xs, y :: ys, h => by
      have h' := h
      simp only [Json.beq.beqList, Bool.and_eq_true] at h'
      have h1 := Json.beq_correct x y h'.1
      have h2 := Json.beqList_correct xs ys h'.2
      simp [h1, h2]

theorem Json.beqObj_correct : ∀ a b : List (String × Json), Json.beq.beqObj a b = true → a = b
  | [], [], _ => rfl
  | (k, v) :: xs, (l, w) :: ys, h => by
      have h' := h
      simp only [Json.beq.beqObj, Bool.and_eq_true] at h'
      have h1 : k = l := eq_of_beq h'.1.1
      have h2 := Json.beq_correct v w h'.1.2
      have h3 := Json.beqObj_correct xs ys h'.2
      simp [h1, h2, h3]

end

mutual

theorem Json.beq_refl : ∀ a : Json, a.beq a = true
  | .null => rfl
  | .bool b => by simp [Json.beq]
  | .num q => by simp [Json.beq]
  | .nan => rfl
  | .inf n => by simp [Json.beq]
  | .str s => by simp [Json.beq]
  | .arr xs => by simpa [Json.beq] using Json.beqList_refl xs
  | .obj kvs => by simpa [Json.beq] using Json.beqObj_refl kvs

theorem Json.beqList_refl : ∀ a : List Json, Json.beq.beqList a a = true
  | [] => rfl
  | x :: xs => by
      simp only [Json.beq.beqList, Bool.and_eq_true]
      exact ⟨Json.beq_refl x, Json.beqList_refl xs⟩

theorem Json.beqObj_refl : ∀ a : List (String × Json), Json.beq.beqObj a a = true
  | [] => rfl
  | (k, v) :: xs => by
      simp only [Json.beq.beqObj, Bool.and_eq_true]
      exact ⟨⟨by simp, Json.beq_refl v⟩, Json.beqObj_refl xs⟩

end

instance : DecidableEq Json := fun a b =>
  if h : a.beq b = true then .isTrue (Json.beq_correct a b h)
  else .isFalse (fun he => h (he ▸ Json.beq_refl a))

/-- Python truthiness (`bool(x)`) for the values `json.loads` can produce. -/
def truthy : Json → Bool
  | .null => false
  | .bool b => b
  | .num q => q != 0
  | .nan => true
  | .inf _ => true
  | .str s => s != ""
  | .arr xs => !xs.isEmpty
  | .obj kvs => !kvs.isEmpty

/-- Python `==` on parsed JSON values.  Scalars compare as in CPython
(`True == 1`, `nan != nan`); containers compare elementwise.
(Python dict `==` is insertion-order-insensitive; the source only ever
compares events against scalar literals, so the order-sensitive structural
comparison used here for `obj` is never observable.) -/
def pyEq : Json → Json → Bool
  | .null, .null => true
  | .bool a, .bool b => a == b
  | .bool a, .num q => (if a then (1 : ℚ) else 0) == q
  | .num q, .bool b => q == (if b then (1 : ℚ) else 0)
  | .num a, .num b => a == b
  | .inf a, .inf b => a == b
  | .str a, .str b => a == b
  | .arr a, .arr b => pyEqList a b
  | .obj a, .obj b => pyEqObj a b
  | _, _ => false
where
  pyEqList : List Json → List Json → Bool
    | [], [] => true
    | x :: xs, y :: ys => pyEq x y && pyEqList xs ys
    | _, _ => false
  pyEqObj : List (String × Json) → List (String × Json) → Bool
    | [], [] => true
    | (k, v) :: xs, (l, w) :: ys => k == l && pyEq v w && pyEqObj xs ys
    | _, _ => false

/-- A value usable as a Python `dict` key (`nan`/`inf` are hashable floats). -/
def hashable : Json → Bool
  | .arr _ => false
  | .obj _ => false
  | _ => true

/-- Python `a or b` (value-returning, short-circuit on truthiness). -/
def pyOr (a b : Json) : Json := if truthy a then a else b

/-- First binding of key `k` in an object's field list (fields are unique:
Python's decoder resolves duplicate keys before the object is built). -/
def objLookup? (kvs : List (String × Json)) (k : String) : Option Json :=
  (kvs.find? (fun p => p.1 == k)).map (·.2)

/-- `d.get(k, default)` on a genuine dict: presence-based (a stored `null`
is returned, not the default). -/
def objGetD (kvs : List (String × Json)) (k : String) (d : Json) : Json :=
  (objLookup? kvs k).getD d

/-- `k in d` for a genuine dict. -/
def objHas (kvs : List (String × Json)) (k : String) : Bool :=
  (objLookup? kvs k).isSome

/-- `x.get(k, default)` where `x` is an arbitrary value: raises
`AttributeError` unless `x` is a dict. -/
def Json.getD (j : Json) (k : String) (d : Json) : Except String Json :=
  match j with
  | .obj kvs => .ok (objGetD kvs k d)
  | _ => .error "AttributeError: get"

/-- `x.get(k)` (missing key gives Python `None`, i.e. `Json.null`). -/
def Json.getN (j : Json) (k : String) : Except String Json := j.getD k .null

/-- `len(x)`: defined for strings (code points), lists and dicts,
`TypeError` otherwise. -/
def pyLen : Json → Except String Nat
  | .str s => .ok s.length
  | .arr xs => .ok xs.length
  | .obj kvs => .ok kvs.length
  | _ => .error "TypeError: len"

/-- `x[:n]`: strings and lists slice, everything else raises `TypeError`. -/
def pySliceTake (j : Json) (n : Nat) : Except String Json :=
  match j with
  | .str s => .ok (.str (s.take n))
  | .arr xs => .ok (.arr (xs.take n))
  | _ => .error "TypeError: slice"

/-- `a + b` where `a` is a `str` (the only shape reachable in the source:
the accumulator starts as `""`): string concatenation, `TypeError` for a
non-string right operand. -/
def pyAdd (a b : Json) : Except String Json :=
  match a, b with
  | .str x, .str y => .ok (.str (x ++ y))
  | _, _ => .error "TypeError: add"

/-- `repr`-style escaping inside Python containers: backslash and the quote
are escaped; other characters are kept as-is (Python additionally escapes
control and some non-printable characters, which never occur in the claims). -/
def pyEscape (s : String) : String :=
  s.data.foldl (fun acc c =>
    if c = '\\' then acc ++ "\\\\"
    else if c = '\x27' then acc ++ "\\\x27"
    else acc.push c) ""

/-- Fixed-point rendering of a rational with 4 decimals (Python `f"{x:.4f}"`),
rounding half-to-even as CPython does. -/
def fmt4 (q : ℚ) : String :=
  let sign := if q < 0 then "-" else ""
  let a : ℚ := |q| * 10000
  let fl : ℤ := ⌊a⌋
  let r : ℚ := a - fl
  let n : ℤ := if r < 1/2 then fl else if r > 1/2 then fl + 1 else if fl % 2 = 0 then fl else fl + 1
  let m := n.toNat
  let ip := m / 10000
  let fp := m % 10000
  let fpStr := toString fp
  let pad := String.mk (List.replicate (4 - fpStr.length) '0')
  sign ++ toString ip ++ "." ++ pad ++ fpStr

mutual

/-- Python `str(x)` of a parsed JSON value.  Integral numbers render like
Python ints; non-integral numbers are rendered `num/den` (an approximation:
Python renders floats in decimal — no claim involves a non-integral number). -/
def pyStr : Json → String
  | .null => "None"
  | .bool b => if b then "True" else "False"
  | .num q => if q.den = 1 then toString q.num else toString q.num ++ "/" ++ toString q.den
  | .nan => "nan"
  | .inf neg => if neg then "-inf" else "inf"
  | .str s => s
  | .arr xs => "[" ++ String.intercalate ", " (pyReprList xs) ++ "]"
  | .obj kvs => "\x7b" ++ String.intercalate ", " (pyReprObj kvs) ++ "\x7d"

/-- Python `repr(x)`: like `str` but strings are quoted. -/
def pyRepr : Json → String
  | .str s => "\x27" ++ pyEscape s ++ "\x27"
  | .arr xs => "[" ++ String.intercalate ", " (pyReprList xs) ++ "]"
  | .obj kvs => "\x7b" ++ String.intercalate ", " (pyReprObj kvs) ++ "\x7d"
  | j => pyStr j

def pyReprList : List Json → List String
  | [] => []
  | x :: xs => pyRepr x :: pyReprList xs

def pyReprObj : List (String × Json) → List String
  | [] => []
  | (k, v) :: xs => ("\x27" ++ pyEscape k ++ "\x27: " ++ pyRepr v) :: pyReprObj xs

end

/-- `k in x` for an arbitrary value `x` (Python `in`): dict key membership,
substring test for strings, element membership for lists, `TypeError`
otherwise. -/
def pyInKey (k : String) (x : Json) : Except String Bool :=
  match x with
  | .obj kvs => .ok (objHas kvs k)
  | .str s => .ok (decide (List.IsInfix k.data s.data))
  | .arr xs => .ok (xs.any (fun e => pyEq (Json.str k) e))
  | _ => .error "TypeError: in"

/-! ## A model of Python's `json.loads` -/

/-- JSON inter-token whitespace. -/
def jsonWs (c : Char) : Bool := c == ' ' || c == '\t' || c == '\n' || c == '\r'

def skipWs (cs : List Char) : List Char := cs.dropWhile jsonWs

def hexDigit? (c : Char) : Option Nat :=
  if '0' ≤ c && c ≤ '9' then some (c.toNat - 48)
  else if 'a' ≤ c && c ≤ 'f' then some (c.toNat - 87)
  else if 'A' ≤ c && c ≤ 'F' then some (c.toNat - 55)
  else none

def hex4? (a b c d : Char) : Option Nat :=
  match hexDigit? a, hexDigit? b, hexDigit? c, hexDigit? d with
  | some x, some y, some z, some w => some (((x * 16 + y) * 16 + z) * 16 + w)
  | _, _, _, _ => none

/-- After a high surrogate `\uXXXX`, try to combine with a following low
surrogate escape; otherwise stand in U+FFFD for the lone surrogate (which
Python's `str` can hold but Lean's `Char` cannot — no claim involves one). -/
def pairLowSurrogate (n : Nat) (r : List Char) : Char × List Char :=
  match r with
  | '\\' :: 'u' :: a2 :: b2 :: c2 :: d2 :: r2 =>
      match hex4? a2 b2 c2 d2 with
      | some n2 =>
          if 0xDC00 ≤ n2 && n2 ≤ 0xDFFF then
            (Char.ofNat (0x10000 + (n - 0xD800) * 0x400 + (n2 - 0xDC00)), r2)
          else ('�', r)
      | none => ('�', r)
  | _ => ('�', r)

/-- Parse the body of a JSON string literal (opening quote already consumed).
Surrogate pairs are combined; a lone surrogate is mapped to U+FFFD.  Fuel
bounds the recursion; every step consumes at least one character, so callers
pass `length + 1` and the fuel never runs out. -/
def parseStringLit (acc : String) : Nat → List Char → Option (String × List Char)
  | 0, _ => none
  | _ + 1, [] => none
  | _ + 1, '"' :: rest => some (acc, rest)
  | fuel + 1, '\\' :: '"' :: r => parseStringLit (acc.push '"') fuel r
  | fuel + 1, '\\' :: '\\' :: r => parseStringLit (acc.push '\\') fuel r
  | fuel + 1, '\\' :: '/' :: r => parseStringLit (acc.push '/') fuel r
  | fuel + 1, '\\' :: 'b' :: r => parseStringLit (acc.push '\x08') fuel r
  | fuel + 1, '\\' :: 'f' :: r => parseStringLit (acc.push '\x0c') fuel r
  | fuel + 1, '\\' :: 'n' :: r => parseStringLit (acc.push '\n') fuel r
  | fuel + 1, '\\' :: 'r' :: r => parseStringLit (acc.push '\r') fuel r
  | fuel + 1, '\\' :: 't' :: r => parseStringLit (acc.push '\t') fuel r
  | fuel + 1, '\\' :: 'u' :: a :: b :: c :: d :: r =>
      match hex4? a b c d with
      | none => none
      | some n =>
        if 0xD800 ≤ n && n ≤ 0xDBFF then
          let p := pairLowSurrogate n r
          parseStringLit (acc.push p.1) fuel p.2
        else if 0xDC00 ≤ n && n ≤ 0xDFFF then
          parseStringLit (acc.push '\uFFFD') fuel r
        else
          parseStringLit (acc.push (Char.ofNat n)) fuel r
  | _ + 1, '\\' :: _ => none
  | fuel + 1, c :: rest =>
      if c.toNat < 0x20 then none else parseStringLit (acc.push c) fuel rest

def digitsToNat (ds : List Char) : Nat := ds.foldl (fun n c => n * 10 + (c.toNat - 48)) 0

/-- Parse a JSON number (strict grammar: no leading zeros, no bare `.5`),
to an exact rational. -/
def parseNumber (cs : List Char) : Option (Json × List Char) :=
  let (neg, cs1) := match cs with | '-' :: r => (true, r) | _ => (false, cs)
  let ipPart : Option (Nat × List Char) :=
    match cs1 with
    | '0' :: r => some (0, r)
    | c :: _ =>
        if '1' ≤ c && c ≤ '9' then
          let p := cs1.span (fun c => c.isDigit)
          some (digitsToNat p.1, p.2)
        else none
    | [] => none
  match ipPart with
  | none => none
  | some (ip, rest) =>
    let fracPart : Option (List Char × List Char) :=
      match rest with
      | '.' :: r2 =>
          let p := r2.span (fun c => c.isDigit)
          if p.1.isEmpty then none else some (p.1, p.2)
      | _ => some ([], rest)
    match fracPart with
    | none => none
    | some (fracDigits, rest2) =>
      let expPart : Option (Int × List Char) :=
        match rest2 with
        | 'e' :: r3 | 'E' :: r3 =>
            let (esign, r4) := match r3 with
              | '-' :: r5 => (true, r5)
              | '+' :: r5 => (false, r5)
              | _ => (false, r3)
            let p := r4.span (fun c => c.isDigit)
            if p.1.isEmpty then none
            else some (if esign then -(digitsToNat p.1 : Int) else (digitsToNat p.1 : Int), p.2)
        | _ => some (0, rest2)
      match expPart with
      | none => none
      | some (e, rest3) =>
        let mant : ℚ := (ip * 10 ^ fracDigits.length + digitsToNat fracDigits : ℕ)
        let q : ℚ := mant / (10 : ℚ) ^ fracDigits.length * (10 : ℚ) ^ e
        some (.num (if neg then -q else q), rest3)

/-- Keep Python-dict insertion semantics for duplicate keys in object
literals: the later value wins, at the original position. -/
def objInsert : List (String × Json) → String → Json → List (String × Json)
  | [], k, v => [(k, v)]
  | (k0, v0) :: rest, k, v =>
      if k0 = k then (k0, v) :: rest else (k0, v0) :: objInsert rest k v

/-- Parsing task for the single-function recursive-descent parser: a whole
value, the items of an object body, or the items of an array body (the
latter two carry the items accumulated so far). -/
inductive PTask where
  | value : PTask
  | objItems : List (String × Json) → PTask
  | arrItems : List Json → PTask

/-- Fueled recursive-descent JSON parser (fuel bounds nesting + item count;
`json_loads` supplies more than enough).  A single function structurally
recursive on the fuel, so that concrete inputs evaluate definitionally. -/
def parseJsonCore : Nat → PTask → List Char → Option (Json × List Char)
  | 0, _, _ => none
  | fuel + 1, .value, cs =>
    match cs with
    | '\x7b' :: rest =>
        (match skipWs rest with
         | '\x7d' :: r => some (.obj [], r)
         | cs2 => parseJsonCore fuel (.objItems []) cs2)
    | '[' :: rest =>
        (match skipWs rest with
         | ']' :: r => some (.arr [], r)
         | cs2 => parseJsonCore fuel (.arrItems []) cs2)
    | '"' :: rest =>
        (parseStringLit "" (rest.length + 1) rest).map (fun p => (Json.str p.1, p.2))
    | 't' :: 'r' :: 'u' :: 'e' :: r => some (.bool true, r)
    | 'f' :: 'a' :: 'l' :: 's' :: 'e' :: r => some (.bool false, r)
    | 'n' :: 'u' :: 'l' :: 'l' :: r => some (.null, r)
    | 'N' :: 'a' :: 'N' :: r => some (.nan, r)
    | 'I' :: 'n' :: 'f' :: 'i' :: 'n' :: 'i' :: 't' :: 'y' :: r => some (.inf false, r)
    | '-' :: 'I' :: 'n' :: 'f' :: 'i' :: 'n' :: 'i' :: 't' :: 'y' :: r => some (.inf true, r)
    | _ => parseNumber cs
  | fuel + 1, .objItems acc, cs =>
    match cs with
    | '"' :: r =>
      (match parseStringLit "" (r.length + 1) r with
       | none => none
       | some (k, r2) =>
         match skipWs r2 with
         | ':' :: r3 =>
           (match parseJsonCore fuel .value (skipWs r3) with
            | none => none
            | some (v, r4) =>
              let acc' := objInsert acc k v
              match skipWs r4 with
              | ',' :: r5 => parseJsonCore fuel (.objItems acc') (skipWs r5)
              | '\x7d' :: r5 => some (.obj acc', r5)
              | _ => none)
         | _ => none)
    | _ => none
  | fuel + 1, .arrItems acc, cs =>
    match parseJsonCore fuel .value cs with
    | none => none
    | some (v, r) =>
      match skipWs r with
      | ',' :: r2 => parseJsonCore fuel (.arrItems (acc ++ [v])) (skipWs r2)
      | ']' :: r2 => some (.arr (acc ++ [v]), r2)
      | _ => none

def parseJsonValue (fuel : Nat) (cs : List Char) : Option (Json × List Char) :=
  parseJsonCore fuel .value cs

/-- `json.loads(s)`: one JSON value surrounded only by whitespace. -/
def json_loads (s : String) : Option Json :=
  match parseJsonValue (4 * (s.length + 1)) (skipWs s.data) with
  | some (v, rest) => if skipWs rest = [] then some v else none
  | none => none

/-- ASCII whitespace stripped by Python's `str.strip()` (Python also strips
rare Unicode space characters, which never occur in the claims). -/
def pyIsSpaceChar (c : Char) : Bool :=
  c == ' ' || c == '\t' || c == '\n' || c == '\r' || c == '\x0b' || c == '\x0c'

/-- `line.strip()`. -/
def pyStrip (s : String) : String :=
  String.mk (((s.data.dropWhile pyIsSpaceChar).reverse.dropWhile pyIsSpaceChar).reverse)

/-- `parse_json_event` (loop.py:331-339): strip the line, return `None` for an
empty result, otherwise attempt `json.loads`, mapping decode failure to
`None`. -/
def parse_json_event (line : String) : Option Json :=
  let l := pyStrip line
  if l = "" then none else json_loads l

/-! ## Session state model (`LogEntry`, `LoopState`) -/

/-- A log entry (loop.py:89-96).  The wall-clock `timestamp` is external
input not used by any claim and is omitted; `content` may be any Python
value the source passes (usually a `str`). -/
structure LogEntry where
  icon : String
  color : String
  title : String
  content : Json
  deriving Repr, DecidableEq

/-- `LoopState` (loop.py:129-153), restricted to the fields the normalizer
and controller claims touch.  `current_tool`, token counts, `session_id`,
`model` and `last_error` hold arbitrary Python values (`Json`), because the
source assigns them straight from event fields; Python `None` is
`Json.null`.  Timing fields and debug-log fields are external I/O and are
omitted. -/
structure LoopState where
  engine : String := "claude"
  mode : String := "build"
  iteration : Nat := 0
  max_iterations : Nat := 0
  current_tool : Json := Json.null
  tool_name_by_id : List (Json × Json) := []
  input_tokens : Json := Json.num 0
  output_tokens : Json := Json.num 0
  session_id : Json := Json.null
  model : Json := Json.null
  is_running : Bool := false
  last_error : Json := Json.null
  log_entries : List LogEntry := []
  deriving Repr

/-- `state.add_log(icon, color, title, content)` (loop.py:155-163): append
one immutable entry. -/
def LoopState.add_log (s : LoopState) (icon color title : String)
    (content : Json := Json.str "") : LoopState :=
  { s with log_entries := s.log_entries ++ [⟨icon, color, title, content⟩] }

/-- `d[k] = v` on `tool_name_by_id` (value replaced in place on a matching
key, appended otherwise — Python dict semantics over `==`). -/
def dictSet (d : List (Json × Json)) (k v : Json) : List (Json × Json) :=
  match d with
  | [] => [(k, v)]
  | (k0, v0) :: rest => if pyEq k0 k then (k0, v) :: rest else (k0, v0) :: dictSet rest k v

/-- `d.get(k)` on `tool_name_by_id`. -/
def dictGet? (d : List (Json × Json)) (k : Json) : Option Json :=
  (d.find? (fun p => pyEq p.1 k)).map (·.2)

/-- `d.pop(k, None)` on `tool_name_by_id`: drop the matching binding if
present. -/
def dictPop (d : List (Json × Json)) (k : Json) : List (Json × Json) :=
  match d with
  | [] => []
  | (k0, v0) :: rest => if pyEq k0 k then rest else (k0, v0) :: dictPop rest k

/-! ## The event normalizer `handle_event` (loop.py:342-646)

Each `if` block of the Python function becomes one `rule_*` definition; the
rules are applied in source order.  An event is a parsed dict
(`ev : List (String × Json)`); a non-dict event raises (`handle_event`'s
`.get` on it fails), which the embedding surfaces as `.error`. -/

/-- `event.get("type", "") == t`. -/
def isType (ev : List (String × Json)) (t : String) : Bool :=
  pyEq (objGetD ev "type" (.str "")) (.str t)

/-- loop.py:346-351 — init events (`type == "init"` or a `session_id` key):
record session id and model, log the model when truthy. -/
def rule_init (ev : List (String × Json)) (s : LoopState) : LoopState :=
  if isType ev "init" || objHas ev "session_id" then
    let s := { s with
      session_id := objGetD ev "session_id" (objGetD ev "sessionId" .null),
      model := objGetD ev "model" .null }
    if truthy s.model then s.add_log "🤖" "cyan" ("Model: " ++ pyStr s.model) else s
  else s

/-- loop.py:354-357 — system events. -/
def rule_system (ev : List (String × Json)) (s : LoopState) : LoopState :=
  if isType ev "system" then
    let message := objGetD ev "message" (objGetD ev "subtype" (.str ""))
    if truthy message then s.add_log "ℹ️" "blue" ("System: " ++ pyStr message) else s
  else s

/-- loop.py:360-368 — Gemini `message` events: join text fragments of a
list-valued content (`"".join`, raising on a non-string fragment as Python
does), then log when the role is assistant and the text is non-trivial. -/
def rule_message (ev : List (String × Json)) (s : LoopState) : Except String LoopState := do
  if isType ev "message" then
    let role := objGetD ev "role" .null
    let content0 := objGetD ev "content" (.str "")
    let content ←
      match content0 with
      | .arr items =>
          (items.foldlM (fun (acc : String) (it : Json) =>
            match it with
            | Json.obj ikvs =>
                match objGetD ikvs "text" (.str "") with
                | Json.str t => Except.ok (acc ++ t)
                | _ => Except.error "TypeError: join"
            | _ => Except.ok acc) "").map Json.str
      | _ => pure content0
    if pyEq role (.str "assistant") && truthy content then
      let n ← pyLen content
      if n > 10 then
        let p ← pySliceTake content 300
        pure (s.add_log "💬" "white" "Assistant" p)
      else pure s
    else pure s
  else pure s

/-- One step of the loop over `content_list` items (loop.py:389-398):
text fragments accumulate; `tool_use` fragments set the current tool and
log it with a 100-character argument preview. -/
def assistantItemStep (p : Json × LoopState) (item : Json) : Except String (Json × LoopState) :=
  match item with
  | .obj ikvs =>
      let it := objGetD ikvs "type" .null
      if pyEq it (.str "text") then do
        let c' ← pyAdd p.1 (objGetD ikvs "text" (.str ""))
        pure (c', p.2)
      else if pyEq it (.str "tool_use") then
        let tool_name := objGetD ikvs "name" (.str "unknown")
        let tool_input := objGetD ikvs "input" (.obj [])
        let s := { p.2 with current_tool := tool_name }
        pure (p.1, s.add_log "🔧" "yellow" ("Tool: " ++ pyStr tool_name)
          (.str ((pyStr tool_input).take 100)))
      else pure p
  | _ => pure p

/-- The trailing `if content and len(content) > 10` block of the assistant
handler (loop.py:402-403): log non-trivial resolved text with a
300-character preview. -/
def assistantLogText (content : Json) (s : LoopState) : Except String LoopState := do
  if truthy content then
    let n ← pyLen content
    if n > 10 then do
      let p ← pySliceTake content 300
      pure (s.add_log "💬" "white" "Assistant" p)
    else pure s
  else pure s

/-- loop.py:371-403 — assistant text events (`assistant`,
`assistant.message`, `content_block_delta`): resolve the content from
`event["message"]["content"]`, `event["content"]` or a `text_delta`
`event["delta"]`, handle inline `tool_use` fragments, then log non-trivial
text (`assistantLogText`). -/
def rule_assistant (ev : List (String × Json)) (s : LoopState) : Except String LoopState := do
  let et := objGetD ev "type" (.str "")
  if pyEq et (.str "assistant") || pyEq et (.str "assistant.message") ||
      pyEq et (.str "content_block_delta") then
    let message := objGetD ev "message" (.obj [])
    let hasContent ← pyInKey "content" message
    let init : Json × Option Json ←
      if hasContent then do
        let cl ← message.getD "content" (.arr [])
        pure (.str "", some cl)
      else if objHas ev "content" then
        pure (.str "", some (objGetD ev "content" (.arr [])))
      else if objHas ev "delta" then do
        let delta := objGetD ev "delta" (.obj [])
        let dt ← delta.getN "type"
        if pyEq dt (.str "text_delta") then do
          let t ← delta.getD "text" (.str "")
          pure (t, none)
        else pure (.str "", none)
      else pure (.str "", none)
    let p ←
      match init.2 with
      | some (.arr items) => items.foldlM assistantItemStep (init.1, s)
      | some (.str c) => pure (Json.str c, s)
      | some _ => pure (init.1, s)
      | none => pure (init.1, s)
    assistantLogText p.1 p.2
  else pure s

/-- `event.get("tool_id", event.get("id", event.get("call_id")))`
(loop.py:409 and 426). -/
def eventToolId (ev : List (String × Json)) : Json :=
  objGetD ev "tool_id" (objGetD ev "id" (objGetD ev "call_id" .null))

/-- loop.py:406-414 — direct `tool_use` events: resolve name and input via
fallback chains, remember the id→name correlation, set the current tool,
log with a 150-character argument preview. -/
def rule_tool_use (ev : List (String × Json)) (s : LoopState) : Except String LoopState := do
  if isType ev "tool_use" then
    let tool_name := pyOr (objGetD ev "name" .null) (pyOr (objGetD ev "tool" .null)
      (pyOr (objGetD ev "tool_name" .null) (.str "unknown")))
    let tool_input := objGetD ev "input" (objGetD ev "arguments" (objGetD ev "parameters" (.obj [])))
    let tool_id := eventToolId ev
    let s ←
      if truthy tool_id && truthy tool_name then
        if hashable tool_id then
          pure { s with tool_name_by_id := dictSet s.tool_name_by_id tool_id tool_name }
        else Except.error "TypeError: unhashable"
      else pure s
    let s := { s with current_tool := tool_name }
    let preview := if truthy tool_input then Json.str ((pyStr tool_input).take 150) else Json.str ""
    pure (s.add_log "🔧" "yellow" ("Tool: " ++ pyStr tool_name) preview)
  else pure s

/-- loop.py:417-422 — `content_block_start` carrying a `tool_use` block. -/
def rule_content_block_start (ev : List (String × Json)) (s : LoopState) :
    Except String LoopState := do
  if isType ev "content_block_start" then
    let cb := objGetD ev "content_block" (.obj [])
    let t ← cb.getN "type"
    if pyEq t (.str "tool_use") then do
      let tool_name ← cb.getD "name" (.str "unknown")
      pure (({ s with current_tool := tool_name }).add_log "🔧" "yellow"
        ("Tool: " ++ pyStr tool_name))
    else pure s
  else pure s

/-- loop.py:425-448 — `tool_result` events: resolve the name from the
explicit field, the pending map, the current tool, or `"unknown"`; log an
error or success entry; clear the current tool; drop the pending entry. -/
def rule_tool_result (ev : List (String × Json)) (s : LoopState) : Except String LoopState := do
  if isType ev "tool_result" then
    let tool_id := eventToolId ev
    let name0 := objGetD ev "name" .null
    let tool_name ←
      if truthy name0 then pure name0
      else do
        let fromMap ←
          if hashable tool_id then pure ((dictGet? s.tool_name_by_id tool_id).getD .null)
          else Except.error "TypeError: unhashable"
        if truthy fromMap then pure fromMap
        else if truthy s.current_tool then pure s.current_tool
        else pure (Json.str "unknown")
    let output := objGetD ev "output" (objGetD ev "content" (objGetD ev "result" (.str "")))
    let error_info := objGetD ev "error" .null
    let status := objGetD ev "status" .null
    let is_err := truthy error_info || truthy (objGetD ev "is_error" (.bool false)) ||
      pyEq status (.str "error")
    let s :=
      if is_err then
        let output :=
          match error_info with
          | .obj ekvs => objGetD ekvs "message" output
          | _ => output
        s.add_log "⚠️" "red" ("Tool Error: " ++ pyStr tool_name) (.str ((pyStr output).take 200))
      else
        s.add_log "✓" "green" ("Tool Result: " ++ pyStr tool_name)
          (if truthy output then Json.str ((pyStr output).take 150) else Json.str "")
    let s := { s with current_tool := .null }
    if truthy tool_id then
      if hashable tool_id then pure { s with tool_name_by_id := dictPop s.tool_name_by_id tool_id }
      else Except.error "TypeError: unhashable"
    else pure s
  else pure s

/-- The token-update block shared by the usage/stats/result/turn.completed
handlers (loop.py:452-453, 456-457, 470-473, 506-508):
`state.input_tokens = src.get("input_tokens", state.input_tokens)` and the
same for `output_tokens` — overwrite each count only with a field that is
present, raising if `src` is not a dict. -/
def applyTokensFrom (src : Json) (s : LoopState) : Except String LoopState := do
  let it ← src.getD "input_tokens" s.input_tokens
  let ot ← src.getD "output_tokens" s.output_tokens
  pure { s with input_tokens := it, output_tokens := ot }

/-- loop.py:451-454 — any event with a `usage` object: overwrite the token
counts with the fields that are present. -/
def rule_usage (ev : List (String × Json)) (s : LoopState) : Except String LoopState := do
  if objHas ev "usage" then
    applyTokensFrom (objGetD ev "usage" (.obj [])) s
  else pure s

/-- loop.py:455-458 — any event with a `stats` object, same treatment
(applied after `usage`, so `stats` wins when both are present). -/
def rule_stats (ev : List (String × Json)) (s : LoopState) : Except String LoopState := do
  if objHas ev "stats" then
    applyTokensFrom (objGetD ev "stats" (.obj [])) s
  else pure s

/-- loop.py:461-477 — `result` events: log the result text or status,
re-apply the usage/stats token updates, log a non-zero cost at 4 decimal
places. -/
def rule_result (ev : List (String × Json)) (s : LoopState) : Except String LoopState := do
  if isType ev "result" then
    let result_text := objGetD ev "result" (.str "")
    let s ←
      if truthy result_text then do
        let p ← pySliceTake result_text 300
        pure (s.add_log "📋" "white" "Result" p)
      else if truthy (objGetD ev "status" .null) then
        pure (s.add_log "📋" "white" "Result" (.str (pyStr (objGetD ev "status" .null))))
      else pure s
    let s ← applyTokensFrom (objGetD ev "usage" (.obj [])) s
    let s ← applyTokensFrom (objGetD ev "stats" (.obj [])) s
    let cost := objGetD ev "cost_usd" (.num 0)
    if truthy cost then do
      let c ←
        match cost with
        | .num q => Except.ok (fmt4 q)
        | .bool b => Except.ok (fmt4 (if b then 1 else 0))
        | .nan => Except.ok "nan"
        | .inf neg => Except.ok (if neg then "-inf" else "inf")
        | _ => Except.error "TypeError: format"
      pure (s.add_log "💰" "cyan" ("Cost: $" ++ c))
    else pure s
  else pure s

/-- loop.py:480-487 — `error` events: unwrap a structured error message into
`last_error` and an error log entry. -/
def rule_error (ev : List (String × Json)) (s : LoopState) : LoopState :=
  if isType ev "error" then
    let error_msg := objGetD ev "error" (objGetD ev "message" (.obj []))
    let error_text : Json :=
      match error_msg with
      | .obj ekvs => objGetD ekvs "message" (.str (pyStr (Json.obj ekvs)))
      | _ => .str (pyStr error_msg)
    ({ s with last_error := error_text }).add_log "❌" "red" "Error" error_text
  else s

/-- loop.py:494-497 — Codex `thread.started`. -/
def rule_thread_started (ev : List (String × Json)) (s : LoopState) : Except String LoopState := do
  if isType ev "thread.started" then
    let thread_id := objGetD ev "thread_id" (.str "")
    let s := { s with session_id := thread_id }
    let content ← if truthy thread_id then pySliceTake thread_id 20 else pure (Json.str "")
    pure (s.add_log "🧵" "cyan" "Thread started" content)
  else pure s

/-- loop.py:500-501 — Codex `turn.started`. -/
def rule_turn_started (ev : List (String × Json)) (s : LoopState) : LoopState :=
  if isType ev "turn.started" then s.add_log "🔄" "blue" "Turn started" else s

/-- loop.py:504-509 — Codex `turn.completed`: token counts from the `usage`
object via `applyTokensFrom`, the cached count read for display only, then
a summary log line.  (The source reads `cached_input_tokens` between the two
token assignments; the reads are effect-free on the state, so grouping the
two assignments first is observationally identical, including which
`AttributeError` is raised.) -/
def rule_turn_completed (ev : List (String × Json)) (s : LoopState) : Except String LoopState := do
  if isType ev "turn.completed" then
    let usage := objGetD ev "usage" (.obj [])
    let s ← applyTokensFrom usage s
    let cached ← usage.getD "cached_input_tokens" (.num 0)
    pure (s.add_log "✅" "green" "Turn completed"
      (.str ("in:" ++ pyStr s.input_tokens ++ " out:" ++ pyStr s.output_tokens ++
        " cached:" ++ pyStr cached)))
  else pure s

/-- loop.py:512-515 — Codex `turn.failed`. -/
def rule_turn_failed (ev : List (String × Json)) (s : LoopState) : LoopState :=
  if isType ev "turn.failed" then
    let error_msg := objGetD ev "error" (objGetD ev "message" (.str "Unknown error"))
    let t := (pyStr error_msg).take 200
    ({ s with last_error := .str t }).add_log "❌" "red" "Turn failed" (.str t)
  else s

/-- `item.get("text") or item.get("content") or item.get("message") or
item.get("summary") or ""` (loop.py:523 and 556). -/
def itemText (ikvs : List (String × Json)) : Json :=
  pyOr (objGetD ikvs "text" .null) (pyOr (objGetD ikvs "content" .null)
    (pyOr (objGetD ikvs "message" .null) (pyOr (objGetD ikvs "summary" .null) (.str ""))))

/-- loop.py:518-549 — Codex `item.started`, dispatched on the item type. -/
def rule_item_started (ev : List (String × Json)) (s : LoopState) : Except String LoopState := do
  if isType ev "item.started" then
    match objGetD ev "item" (.obj []) with
    | .obj ikvs =>
      let item_type := objGetD ikvs "type" (.str "unknown")
      let text := itemText ikvs
      if pyEq item_type (.str "command_execution") then do
        let p ← pySliceTake (objGetD ikvs "command" (.str "")) 150
        pure (({ s with current_tool := .str "bash" }).add_log "⚡" "yellow" "Command" p)
      else if pyEq item_type (.str "agent_message") then
        if truthy text then do
          let p ← pySliceTake text 300
          pure (s.add_log "💬" "white" "Agent" p)
        else pure s
      else if pyEq item_type (.str "reasoning") then
        if truthy text then do
          let p ← pySliceTake text 300
          pure (s.add_log "💭" "magenta" "Reasoning" p)
        else pure s
      else if pyEq item_type (.str "file_change") then
        let path := objGetD ikvs "path" (objGetD ikvs "file" (.str ""))
        let action := objGetD ikvs "action" (.str "modify")
        pure (s.add_log "📝" "cyan" ("File " ++ pyStr action) path)
      else if pyEq item_type (.str "mcp_tool_call") then
        let tool_name := objGetD ikvs "tool" (objGetD ikvs "name" (.str "unknown"))
        pure (({ s with current_tool := tool_name }).add_log "🔧" "yellow"
          ("MCP Tool: " ++ pyStr tool_name))
      else if pyEq item_type (.str "web_search") then do
        let p ← pySliceTake (objGetD ikvs "query" (.str "")) 100
        pure (s.add_log "🔍" "blue" "Web search" p)
      else do
        let preview ←
          if truthy text then pySliceTake text 100
          else pure (Json.str ((pyStr (Json.obj ikvs)).take 100))
        pure (s.add_log "📦" "dim" ("Item: " ++ pyStr item_type) preview)
    | _ => Except.error "AttributeError: get"
  else pure s

/-- loop.py:552-582 — Codex `item.completed`, dispatched on the item type. -/
def rule_item_completed (ev : List (String × Json)) (s : LoopState) : Except String LoopState := do
  if isType ev "item.completed" then
    match objGetD ev "item" (.obj []) with
    | .obj ikvs =>
      let item_type := objGetD ikvs "type" (.str "unknown")
      let text := itemText ikvs
      if pyEq item_type (.str "command_execution") then
        let exit_code := objGetD ikvs "exit_code" (objGetD ikvs "exitCode" (.num 0))
        let output := objGetD ikvs "output" (objGetD ikvs "stdout" (.str ""))
        let s :=
          if !pyEq exit_code (.num 0) then
            s.add_log "⚠️" "red" ("Command failed (exit " ++ pyStr exit_code ++ ")")
              (.str ((pyStr output).take 150))
          else
            s.add_log "✓" "green" "Command done"
              (.str (if truthy output then (pyStr output).take 100 else ""))
        pure { s with current_tool := .null }
      else if pyEq item_type (.str "agent_message") then
        if truthy text then do
          let p ← pySliceTake text 300
          pure (s.add_log "💬" "white" "Message" p)
        else pure s
      else if pyEq item_type (.str "reasoning") then
        if truthy text then do
          let p ← pySliceTake text 300
          pure (s.add_log "💭" "magenta" "Thought" p)
        else pure s
      else if pyEq item_type (.str "file_change") then
        let path := objGetD ikvs "path" (objGetD ikvs "file" (.str ""))
        pure (s.add_log "✓" "green" "File saved" path)
      else if pyEq item_type (.str "mcp_tool_call") then
        let result := objGetD ikvs "result" (objGetD ikvs "output" (.str ""))
        let s := s.add_log "✓" "green" "MCP Result" (.str ((pyStr result).take 150))
        pure { s with current_tool := .null }
      else
        if truthy text then do
          let p ← pySliceTake text 150
          pure (s.add_log "📦" "dim" ("Done: " ++ pyStr item_type) p)
        else pure s
    | _ => Except.error "AttributeError: get"
  else pure s

/-- Strip one of the known wrapper suffixes from a single-key tool name
(loop.py:604-607; first match wins). -/
def strEndsWith (s suffix : String) : Bool :=
  suffix.data.isSuffixOf s.data

def stripToolSuffix (n : String) : String :=
  if strEndsWith n "ToolCall" then n.dropRight 8
  else if strEndsWith n "toolCall" then n.dropRight 8
  else if strEndsWith n "Call" then n.dropRight 4
  else n

/-- `_extract_cursor_tool_call` (loop.py:589-610): resolve the tool name
from direct fields; if none is found and the payload has exactly one key,
use that key (wrapper suffix stripped) and descend into its value for the
argument/result payload. -/
def extract_cursor_tool_call (payload : Json) : Except String (Json × Json × Json) := do
  match payload with
  | .obj kvs =>
      let name0 := pyOr (objGetD kvs "name" .null) (pyOr (objGetD kvs "tool_name" .null)
        (pyOr (objGetD kvs "tool" .null) (objGetD kvs "type" .null)))
      let tool_name ← if truthy name0 then pure name0 else (objGetD kvs "function" (.obj [])).getN "name"
      let (tool_name, tool_payload) :=
        if !truthy tool_name && kvs.length == 1 then
          let tool_key := ((kvs.head?).map (·.1)).getD ""
          (Json.str (stripToolSuffix tool_key), objGetD kvs tool_key (.obj []))
        else (tool_name, payload)
      let argsD ← tool_payload.getD "arguments" (.obj [])
      let args ← tool_payload.getD "args" argsD
      let resD ← tool_payload.getD "output" (.str "")
      let result ← tool_payload.getD "result" resD
      pure (pyOr tool_name (.str "unknown"), args, result)
  | _ => pure (Json.str "unknown", .obj [], .str "")

/-- loop.py:588-632 — Cursor-agent `tool_call` events (`started` /
`completed` subtypes), using `extract_cursor_tool_call`. -/
def rule_tool_call (ev : List (String × Json)) (s : LoopState) : Except String LoopState := do
  if isType ev "tool_call" then
    let subtype := objGetD ev "subtype" (.str "")
    let tool_call := pyOr (objGetD ev "tool_call" (.obj [])) (.obj [])
    let ext ← extract_cursor_tool_call tool_call
    let (tool_name, tool_args, tool_result) := ext
    let idD ← tool_call.getN "id"
    let tool_id := objGetD ev "call_id" idD
    let s ←
      if truthy tool_id && truthy tool_name then
        if hashable tool_id then
          pure { s with tool_name_by_id := dictSet s.tool_name_by_id tool_id tool_name }
        else Except.error "TypeError: unhashable"
      else pure s
    if pyEq subtype (.str "started") then
      let s := { s with current_tool := tool_name }
      let preview := if truthy tool_args then Json.str ((pyStr tool_args).take 150) else Json.str ""
      pure (s.add_log "🔧" "yellow" ("Tool: " ++ pyStr tool_name) preview)
    else if pyEq subtype (.str "completed") then
      let tool_result :=
        match tool_result with
        | .obj rkvs =>
            if objHas rkvs "success" then objGetD rkvs "success" .null
            else if objHas rkvs "error" then objGetD rkvs "error" .null
            else if objHas rkvs "failure" then objGetD rkvs "failure" .null
            else Json.obj rkvs
        | r => r
      let preview := if truthy tool_result then Json.str ((pyStr tool_result).take 150) else Json.str ""
      let s := s.add_log "✓" "green" ("Tool Result: " ++ pyStr tool_name) preview
      let s := { s with current_tool := .null }
      if truthy tool_id then
        if hashable tool_id then
          pure { s with tool_name_by_id := dictPop s.tool_name_by_id tool_id }
        else Except.error "TypeError: unhashable"
      else pure s
    else pure s
  else pure s

/-- loop.py:634-640 — Cursor-agent `thinking` events: log `delta` fragments
longer than 10 characters, and a fixed marker for `completed`. -/
def rule_thinking (ev : List (String × Json)) (s : LoopState) : Except String LoopState := do
  if isType ev "thinking" then
    let subtype := objGetD ev "subtype" (.str "")
    let text := objGetD ev "text" (.str "")
    let cond ←
      if pyEq subtype (.str "delta") && truthy text then do
        let n ← pyLen text
        pure (decide (n > 10))
      else pure false
    if cond then do
      let p ← pySliceTake text 300
      pure (s.add_log "💭" "magenta" "Reasoning" p)
    else if pyEq subtype (.str "completed") then
      pure (s.add_log "💭" "magenta" "Reasoning" (.str "Completed"))
    else pure s
  else pure s

/-- loop.py:642-646 — Cursor-agent `interaction_query` events. -/
def rule_interaction_query (ev : List (String × Json)) (s : LoopState) : LoopState :=
  if isType ev "interaction_query" then
    let query_type := objGetD ev "query_type" (.str "")
    let subtype := objGetD ev "subtype" (.str "")
    if truthy query_type then
      s.add_log "ℹ️" "blue" "Interaction" (.str (pyStr query_type ++ " (" ++ pyStr subtype ++ ")"))
    else s
  else s

/-- `handle_event` (loop.py:342-646): the independent predicate→mutation
rules, applied in source order.  A non-dict event raises at the first
`event.get` (loop.py:344). -/
def handle_event (event : Json) (s : LoopState) : Except String LoopState := do
  match event with
  | .obj ev =>
      let s := rule_init ev s
      let s := rule_system ev s
      let s ← rule_message ev s
      let s ← rule_assistant ev s
      let s ← rule_tool_use ev s
      let s ← rule_content_block_start ev s
      let s ← rule_tool_result ev s
      let s ← rule_usage ev s
      let s ← rule_stats ev s
      let s ← rule_result ev s
      let s := rule_error ev s
      let s ← rule_thread_started ev s
      let s := rule_turn_started ev s
      let s ← rule_turn_completed ev s
      let s := rule_turn_failed ev s
      let s ← rule_item_started ev s
      let s ← rule_item_completed ev s
      let s ← rule_tool_call ev s
      let s ← rule_thinking ev s
      pure (rule_interaction_query ev s)
  | _ => .error "AttributeError: get"

/-- The per-line processing step of `run_iteration` (loop.py:885-892):
parse the line; a truthy parsed event goes to `handle_event`, a non-JSON
non-blank line is logged as raw output with a 200-character preview.
(The `live.update` calls and the debug-mode raw-line file write are
external I/O with no effect on the state model.) -/
def process_line (line : String) (s : LoopState) : Except String LoopState :=
  match parse_json_event line with
  | some e =>
      if truthy e then handle_event e s
      else if pyStrip line ≠ "" then
        .ok (s.add_log "📝" "dim" "Output" (.str ((pyStrip line).take 200)))
      else .ok s
  | none =>
      if pyStrip line ≠ "" then
        .ok (s.add_log "📝" "dim" "Output" (.str ((pyStrip line).take 200)))
      else .ok s

/-- `src` (a `usage`/`stats` value, `{}` when the key is absent) carries no
`input_tokens` / `output_tokens` field.  Non-dict values are included
vacuously: they make the handler raise rather than write. -/
def lacksTokenKeys : Json → Bool
  | .obj kvs => !objHas kvs "input_tokens" && !objHas kvs "output_tokens"
  | _ => true

/-- Neither the event's `usage` nor its `stats` object carries a token
field (in particular: events with no `usage`/`stats` key at all). -/
def eventLacksTokenFields (ev : List (String × Json)) : Bool :=
  lacksTokenKeys (objGetD ev "usage" (.obj [])) && lacksTokenKeys (objGetD ev "stats" (.obj []))

/-! ## The iteration loop controller (`main`, loop.py:981-1013)

The loop skeleton is embedded as a fueled transition function over a
controller state.  The external world enters through two oracles:
`stopOracle k` says whether the STOP marker file exists when the boundary
check after `k` completed iterations runs (the file is only ever created
externally and only ever deleted by the loop), and `outcome n` is the
success of `run_iteration` for iteration `n` (the spawned process's exit
status is external).  `run_iteration`'s own state mutations irrelevant to
the claims (timing, token updates from streamed lines) are carried by the
normalizer model above; here only the controller-visible effects are kept:
the iteration counter, the log titles, the stop file, and why the loop
ended. -/

inductive StopReason where
  | stopSignal
  | maxReached
  deriving Repr, DecidableEq

/-- Controller-visible state of `main`'s loop. -/
structure CtrlState where
  iteration : Nat := 0
  max_iterations : Nat := 0
  stop_file : Bool := false
  logs : List String := []
  status : Option StopReason := none
  deriving Repr, DecidableEq

/-- Startup cleanup (loop.py:981-985): a stale STOP marker is removed (and
logged) before the loop begins. -/
def ralphStartup (c : CtrlState) : CtrlState :=
  if c.stop_file then
    { c with stop_file := false, logs := c.logs ++ ["Removed stale STOP file"] }
  else c

/-- One-or-more turns of `main`'s `while True` loop (loop.py:991-1013),
with `fuel` bounding the number of boundary checks (`none` = fuel ran out,
i.e. the loop was still running).  Each turn: observe the stop file
(externally created since the last check), honor it (log, delete, stop);
else check the max-iterations bound (log, stop); else increment the
iteration counter and run one iteration (`run_iteration` logs its start
and completion/failure; a failure logs the continuation notice and the
loop goes on). -/
def ralphLoop : Nat → CtrlState → (Nat → Bool) → (Nat → Bool) → Option CtrlState
  | 0, _, _, _ => none
  | fuel + 1, c, stopOracle, outcome =>
    let fileNow := c.stop_file || stopOracle c.iteration
    if fileNow then
      some { c with
        stop_file := false,
        logs := c.logs ++ ["Stop signal detected - exiting loop"],
        status := some .stopSignal }
    else if c.max_iterations > 0 && c.iteration ≥ c.max_iterations then
      some { c with
        stop_file := fileNow,
        logs := c.logs ++ ["Reached max iterations: " ++ toString c.max_iterations],
        status := some .maxReached }
    else
      let n := c.iteration + 1
      let iterLogs :=
        ["Starting iteration " ++ toString n] ++
        (if outcome n then
          ["Iteration " ++ toString n ++ " complete"]
        else
          ["Iteration " ++ toString n ++ " failed",
           "Continuing to next iteration despite error"])
      ralphLoop fuel
        { c with iteration := n, stop_file := fileNow, logs := c.logs ++ iterLogs }
        stopOracle outcome

/-! ## Infrastructure lemmas about the rules -/

theorem bindOk {α β : Type} {x : Except String α} {f : α → Except String β} {b : β}
    (h : x >>= f = .ok b) : ∃ a, x = .ok a ∧ f a = .ok b := by
  cases x with
  | error e => simp [Bind.bind, Except.bind] at h
  | ok a => exact ⟨a, rfl, by simpa [Bind.bind, Except.bind] using h⟩

section SkipLemmas

variable (ev : List (String × Json)) (s : LoopState)

theorem rule_init_skip (h : (isType ev "init" || objHas ev "session_id") = false) :
    rule_init ev s = s := by unfold rule_init; simp [h]

theorem rule_system_skip (h : isType ev "system" = false) :
    rule_system ev s = s := by unfold rule_system; simp [h]

theorem rule_message_skip (h : isType ev "message" = false) :
    rule_message ev s = .ok s := by unfold rule_message; simp [h]; rfl

theorem rule_assistant_skip (h1 : pyEq (objGetD ev "type" (.str "")) (.str "assistant") = false)
    (h2 : pyEq (objGetD ev "type" (.str "")) (.str "assistant.message") = false)
    (h3 : pyEq (objGetD ev "type" (.str "")) (.str "content_block_delta") = false) :
    rule_assistant ev s = .ok s := by unfold rule_assistant; simp [h1, h2, h3]; rfl

theorem rule_tool_use_skip (h : isType ev "tool_use" = false) :
    rule_tool_use ev s = .ok s := by unfold rule_tool_use; simp [h]; rfl

theorem rule_content_block_start_skip (h : isType ev "content_block_start" = false) :
    rule_content_block_start ev s = .ok s := by
  unfold rule_content_block_start; simp [h]; rfl

theorem rule_tool_result_skip (h : isType ev "tool_result" = false) :
    rule_tool_result ev s = .ok s := by unfold rule_tool_result; simp [h]; rfl

theorem rule_usage_skip (h : objHas ev "usage" = false) :
    rule_usage ev s = .ok s := by unfold rule_usage; simp [h]; rfl

theorem rule_stats_skip (h : objHas ev "stats" = false) :
    rule_stats ev s = .ok s := by unfold rule_stats; simp [h]; rfl

theorem rule_result_skip (h : isType ev "result" = false) :
    rule_result ev s = .ok s := by unfold rule_result; simp [h]; rfl

theorem rule_error_skip (h : isType ev "error" = false) :
    rule_error ev s = s := by unfold rule_error; simp [h]

theorem rule_thread_started_skip (h : isType ev "thread.started" = false) :
    rule_thread_started ev s = .ok s := by unfold rule_thread_started; simp [h]; rfl

theorem rule_turn_started_skip (h : isType ev "turn.started" = false) :
    rule_turn_started ev s = s := by unfold rule_turn_started; simp [h]

theorem rule_turn_completed_skip (h : isType ev "turn.completed" = false) :
    rule_turn_completed ev s = .ok s := by unfold rule_turn_completed; simp [h]; rfl

theorem rule_turn_failed_skip (h : isType ev "turn.failed" = false) :
    rule_turn_failed ev s = s := by unfold rule_turn_failed; simp [h]

theorem rule_item_started_skip (h : isType ev "item.started" = false) :
    rule_item_started ev s = .ok s := by unfold rule_item_started; simp [h]; rfl

theorem rule_item_completed_skip (h : isType ev "item.completed" = false) :
    rule_item_completed ev s = .ok s := by unfold rule_item_completed; simp [h]; rfl

theorem rule_tool_call_skip (h : isType ev "tool_call" = false) :
    rule_tool_call ev s = .ok s := by unfold rule_tool_call; simp [h]; rfl

theorem rule_thinking_skip (h : isType ev "thinking" = false) :
    rule_thinking ev s = .ok s := by unfold rule_thinking; simp [h]; rfl

theorem rule_interaction_query_skip (h : isType ev "interaction_query" = false) :
    rule_interaction_query ev s = s := by unfold rule_interaction_query; simp [h]

end SkipLemmas


/-- Discharge a terminal `pure _ = .ok s'` hypothesis into `s' = _`. -/
theorem pureOk {α : Type} {a b : α} (h : (pure a : Except String α) = .ok b) : a = b := by
  simpa [pure, Except.pure] using h

section FrameLemmas

variable (ev : List (String × Json)) (s : LoopState)

/-- `rule_init` touches only `session_id`, `model` and the log; any entry it
appends carries the robot icon. -/
theorem rule_init_frame :
    (rule_init ev s).input_tokens = s.input_tokens ∧
    (rule_init ev s).output_tokens = s.output_tokens ∧
    (rule_init ev s).tool_name_by_id = s.tool_name_by_id ∧
    (rule_init ev s).current_tool = s.current_tool ∧
    ∃ δ, (rule_init ev s).log_entries = s.log_entries ++ δ ∧ ∀ l ∈ δ, l.icon = "🤖" := by
  unfold rule_init
  split
  · dsimp only
    split
    · exact ⟨rfl, rfl, rfl, rfl, _, rfl, by simp⟩
    · exact ⟨rfl, rfl, rfl, rfl, [], (List.append_nil _).symm, by simp⟩
  · exact ⟨rfl, rfl, rfl, rfl, [], (List.append_nil _).symm, by simp⟩

theorem rule_system_frame :
    (rule_system ev s).model = s.model ∧
    (rule_system ev s).input_tokens = s.input_tokens ∧
    (rule_system ev s).output_tokens = s.output_tokens ∧
    (rule_system ev s).tool_name_by_id = s.tool_name_by_id ∧
    (rule_system ev s).current_tool = s.current_tool ∧
    ∃ δ, (rule_system ev s).log_entries = s.log_entries ++ δ ∧ ∀ l ∈ δ, l.icon ≠ "🤖" := by
  unfold rule_system
  split
  · dsimp only
    split
    · exact ⟨rfl, rfl, rfl, rfl, rfl, _, rfl, by simp⟩
    · exact ⟨rfl, rfl, rfl, rfl, rfl, [], (List.append_nil _).symm, by simp⟩
  · exact ⟨rfl, rfl, rfl, rfl, rfl, [], (List.append_nil _).symm, by simp⟩

theorem rule_error_frame :
    (rule_error ev s).model = s.model ∧
    (rule_error ev s).input_tokens = s.input_tokens ∧
    (rule_error ev s).output_tokens = s.output_tokens ∧
    (rule_error ev s).tool_name_by_id = s.tool_name_by_id ∧
    (rule_error ev s).current_tool = s.current_tool ∧
    ∃ δ, (rule_error ev s).log_entries = s.log_entries ++ δ ∧ ∀ l ∈ δ, l.icon ≠ "🤖" := by
  unfold rule_error
  split
  · exact ⟨rfl, rfl, rfl, rfl, rfl, _, rfl, by simp⟩
  · exact ⟨rfl, rfl, rfl, rfl, rfl, [], (List.append_nil _).symm, by simp⟩

theorem rule_turn_started_frame :
    (rule_turn_started ev s).model = s.model ∧
    (rule_turn_started ev s).input_tokens = s.input_tokens ∧
    (rule_turn_started ev s).output_tokens = s.output_tokens ∧
    (rule_turn_started ev s).tool_name_by_id = s.tool_name_by_id ∧
    (rule_turn_started ev s).current_tool = s.current_tool ∧
    ∃ δ, (rule_turn_started ev s).log_entries = s.log_entries ++ δ ∧ ∀ l ∈ δ, l.icon ≠ "🤖" := by
  unfold rule_turn_started
  split
  · exact ⟨rfl, rfl, rfl, rfl, rfl, _, rfl, by simp⟩
  · exact ⟨rfl, rfl, rfl, rfl, rfl, [], (List.append_nil _).symm, by simp⟩

theorem rule_turn_failed_frame :
    (rule_turn_failed ev s).model = s.model ∧
    (rule_turn_failed ev s).input_tokens = s.input_tokens ∧
    (rule_turn_failed ev s).output_tokens = s.output_tokens ∧
    (rule_turn_failed ev s).tool_name_by_id = s.tool_name_by_id ∧
    (rule_turn_failed ev s).current_tool = s.current_tool ∧
    ∃ δ, (rule_turn_failed ev s).log_entries = s.log_entries ++ δ ∧ ∀ l ∈ δ, l.icon ≠ "🤖" := by
  unfold rule_turn_failed
  split
  · exact ⟨rfl, rfl, rfl, rfl, rfl, _, rfl, by simp⟩
  · exact ⟨rfl, rfl, rfl, rfl, rfl, [], (List.append_nil _).symm, by simp⟩

theorem rule_interaction_query_frame :
    (rule_interaction_query ev s).model = s.model ∧
    (rule_interaction_query ev s).input_tokens = s.input_tokens ∧
    (rule_interaction_query ev s).output_tokens = s.output_tokens ∧
    (rule_interaction_query ev s).tool_name_by_id = s.tool_name_by_id ∧
    (rule_interaction_query ev s).current_tool = s.current_tool ∧
    ∃ δ, (rule_interaction_query ev s).log_entries = s.log_entries ++ δ ∧
      ∀ l ∈ δ, l.icon ≠ "🤖" := by
  unfold rule_interaction_query
  split
  · dsimp only
    split
    · exact ⟨rfl, rfl, rfl, rfl, rfl, _, rfl, by simp⟩
    · exact ⟨rfl, rfl, rfl, rfl, rfl, [], (List.append_nil _).symm, by simp⟩
  · exact ⟨rfl, rfl, rfl, rfl, rfl, [], (List.append_nil _).symm, by simp⟩

end FrameLemmas

theorem rule_message_frame (ev : List (String × Json)) (s s' : LoopState)
    (h : rule_message ev s = .ok s') :
    s'.model = s.model ∧ s'.input_tokens = s.input_tokens ∧
    s'.output_tokens = s.output_tokens ∧ s'.tool_name_by_id = s.tool_name_by_id ∧
    s'.current_tool = s.current_tool ∧
    ∃ δ, s'.log_entries = s.log_entries ++ δ ∧ ∀ l ∈ δ, l.icon ≠ "🤖" := by
  unfold rule_message at h
  repeat (any_goals (first
    | (split at h)
    | (dsimp only [Bind.bind, Except.bind, Pure.pure, Except.pure] at h)
    | (dsimp only at h)
    | (obtain ⟨_, _, h⟩ := bindOk h)))
  all_goals try exact Except.noConfusion h
  all_goals injection h with h
  all_goals subst h
  all_goals first
    | exact ⟨rfl, rfl, rfl, rfl, rfl, [], (List.append_nil _).symm, by simp⟩
    | exact ⟨rfl, rfl, rfl, rfl, rfl, _, rfl, by simp⟩
    | exact ⟨rfl, rfl, rfl, rfl, rfl, _, List.append_assoc _ _ _, by simp⟩

theorem rule_thinking_frame (ev : List (String × Json)) (s s' : LoopState)
    (h : rule_thinking ev s = .ok s') :
    s'.model = s.model ∧ s'.input_tokens = s.input_tokens ∧
    s'.output_tokens = s.output_tokens ∧ s'.tool_name_by_id = s.tool_name_by_id ∧
    s'.current_tool = s.current_tool ∧
    ∃ δ, s'.log_entries = s.log_entries ++ δ ∧ ∀ l ∈ δ, l.icon ≠ "🤖" := by
  unfold rule_thinking at h
  repeat (any_goals (first
    | (split at h)
    | (dsimp only [Bind.bind, Except.bind, Pure.pure, Except.pure] at h)
    | (dsimp only at h)
    | (obtain ⟨_, _, h⟩ := bindOk h)))
  all_goals try exact Except.noConfusion h
  all_goals injection h with h
  all_goals subst h
  all_goals first
    | exact ⟨rfl, rfl, rfl, rfl, rfl, [], (List.append_nil _).symm, by simp⟩
    | exact ⟨rfl, rfl, rfl, rfl, rfl, _, rfl, by simp⟩
    | exact ⟨rfl, rfl, rfl, rfl, rfl, _, List.append_assoc _ _ _, by simp⟩

theorem rule_thread_started_frame (ev : List (String × Json)) (s s' : LoopState)
    (h : rule_thread_started ev s = .ok s') :
    s'.model = s.model ∧ s'.input_tokens = s.input_tokens ∧
    s'.output_tokens = s.output_tokens ∧ s'.tool_name_by_id = s.tool_name_by_id ∧
    s'.current_tool = s.current_tool ∧
    ∃ δ, s'.log_entries = s.log_entries ++ δ ∧ ∀ l ∈ δ, l.icon ≠ "🤖" := by
  unfold rule_thread_started at h
  repeat (any_goals (first
    | (split at h)
    | (dsimp only [Bind.bind, Except.bind, Pure.pure, Except.pure] at h)
    | (dsimp only at h)
    | (obtain ⟨_, _, h⟩ := bindOk h)))
  all_goals try exact Except.noConfusion h
  all_goals injection h with h
  all_goals subst h
  all_goals first
    | exact ⟨rfl, rfl, rfl, rfl, rfl, [], (List.append_nil _).symm, by simp⟩
    | exact ⟨rfl, rfl, rfl, rfl, rfl, _, rfl, by simp⟩
    | exact ⟨rfl, rfl, rfl, rfl, rfl, _, List.append_assoc _ _ _, by simp⟩

theorem rule_usage_frame (ev : List (String × Json)) (s s' : LoopState)
    (h : rule_usage ev s = .ok s') :
    s'.model = s.model ∧ s'.tool_name_by_id = s.tool_name_by_id ∧
    s'.current_tool = s.current_tool ∧
    ∃ δ, s'.log_entries = s.log_entries ++ δ ∧ ∀ l ∈ δ, l.icon ≠ "🤖" := by
  unfold rule_usage applyTokensFrom at h
  repeat (any_goals (first
    | (split at h)
    | (dsimp only [Bind.bind, Except.bind, Pure.pure, Except.pure] at h)
    | (dsimp only at h)
    | (obtain ⟨_, _, h⟩ := bindOk h)))
  all_goals try exact Except.noConfusion h
  all_goals injection h with h
  all_goals subst h
  all_goals first
    | exact ⟨rfl, rfl, rfl, [], (List.append_nil _).symm, by simp⟩
    | exact ⟨rfl, rfl, rfl, _, rfl, by simp⟩
    | exact ⟨rfl, rfl, rfl, _, List.append_assoc _ _ _, by simp⟩

theorem rule_stats_frame (ev : List (String × Json)) (s s' : LoopState)
    (h : rule_stats ev s = .ok s') :
    s'.model = s.model ∧ s'.tool_name_by_id = s.tool_name_by_id ∧
    s'.current_tool = s.current_tool ∧
    ∃ δ, s'.log_entries = s.log_entries ++ δ ∧ ∀ l ∈ δ, l.icon ≠ "🤖" := by
  unfold rule_stats applyTokensFrom at h
  repeat (any_goals (first
    | (split at h)
    | (dsimp only [Bind.bind, Except.bind, Pure.pure, Except.pure] at h)
    | (dsimp only at h)
    | (obtain ⟨_, _, h⟩ := bindOk h)))
  all_goals try exact Except.noConfusion h
  all_goals injection h with h
  all_goals subst h
  all_goals first
    | exact ⟨rfl, rfl, rfl, [], (List.append_nil _).symm, by simp⟩
    | exact ⟨rfl, rfl, rfl, _, rfl, by simp⟩
    | exact ⟨rfl, rfl, rfl, _, List.append_assoc _ _ _, by simp⟩

theorem applyTokensFrom_frame (src : Json) (s s' : LoopState)
    (h : applyTokensFrom src s = .ok s') :
    s'.model = s.model ∧ s'.tool_name_by_id = s.tool_name_by_id ∧
    s'.current_tool = s.current_tool ∧ s'.log_entries = s.log_entries := by
  unfold applyTokensFrom at h
  repeat (any_goals (first
    | (split at h)
    | (dsimp only [Bind.bind, Except.bind, Pure.pure, Except.pure] at h)
    | (dsimp only at h)))
  all_goals try exact Except.noConfusion h
  all_goals injection h with h
  all_goals subst h
  all_goals exact ⟨rfl, rfl, rfl, rfl⟩

theorem rule_result_frame (ev : List (String × Json)) (s s' : LoopState)
    (h : rule_result ev s = .ok s') :
    s'.model = s.model ∧ s'.tool_name_by_id = s.tool_name_by_id ∧
    s'.current_tool = s.current_tool ∧
    ∃ δ, s'.log_entries = s.log_entries ++ δ ∧ ∀ l ∈ δ, l.icon ≠ "🤖" := by
  unfold rule_result at h
  split at h
  case isFalse =>
    cases pureOk h
    exact ⟨rfl, rfl, rfl, [], (List.append_nil _).symm, by simp⟩
  case isTrue =>
    dsimp only at h
    repeat (any_goals (first
      | (split at h)
      | (dsimp only [Bind.bind, Except.bind, Pure.pure, Except.pure, pySliceTake] at h)
      | (dsimp only at h)))
    all_goals try exact Except.noConfusion h
    all_goals injection h with h
    all_goals subst h
    all_goals rename (applyTokensFrom (objGetD ev "usage" (Json.obj [])) _ = Except.ok _) => hu
    all_goals rename (applyTokensFrom (objGetD ev "stats" (Json.obj [])) _ = Except.ok _) => hst
    all_goals obtain ⟨mb, db, cb, lb⟩ := applyTokensFrom_frame _ _ _ hu
    all_goals obtain ⟨mc, dc, cc, lc⟩ := applyTokensFrom_frame _ _ _ hst
    all_goals refine ⟨mc.trans mb, dc.trans db, cc.trans cb, ?_⟩
    all_goals simp only [LoopState.add_log, lc, lb, List.append_assoc,
      List.append_nil, List.singleton_append, List.cons_append]
    all_goals first
      | exact ⟨_, rfl, by simp⟩
      | exact ⟨[], (List.append_nil _).symm, by simp⟩

theorem rule_turn_completed_frame (ev : List (String × Json)) (s s' : LoopState)
    (h : rule_turn_completed ev s = .ok s') :
    s'.model = s.model ∧ s'.tool_name_by_id = s.tool_name_by_id ∧
    s'.current_tool = s.current_tool ∧
    ∃ δ, s'.log_entries = s.log_entries ++ δ ∧ ∀ l ∈ δ, l.icon ≠ "🤖" := by
  unfold rule_turn_completed at h
  split at h
  case isFalse =>
    cases pureOk h
    exact ⟨rfl, rfl, rfl, [], (List.append_nil _).symm, by simp⟩
  case isTrue =>
    dsimp only at h
    obtain ⟨sa, hu, h⟩ := bindOk h
    obtain ⟨ma, da, ca, la⟩ := applyTokensFrom_frame _ _ _ hu
    repeat (any_goals (first
      | (split at h)
      | (dsimp only [Bind.bind, Except.bind, Pure.pure, Except.pure] at h)
      | (dsimp only at h)))
    all_goals try exact Except.noConfusion h
    all_goals injection h with h
    all_goals subst h
    all_goals exact ⟨ma, da, ca, [_], by rw [LoopState.add_log, la], by simp⟩

theorem rule_content_block_start_frame (ev : List (String × Json)) (s s' : LoopState)
    (h : rule_content_block_start ev s = .ok s') :
    s'.model = s.model ∧ s'.input_tokens = s.input_tokens ∧
    s'.output_tokens = s.output_tokens ∧ s'.tool_name_by_id = s.tool_name_by_id ∧
    ∃ δ, s'.log_entries = s.log_entries ++ δ ∧ ∀ l ∈ δ, l.icon ≠ "🤖" := by
  unfold rule_content_block_start at h
  repeat (any_goals (first
    | (split at h)
    | (dsimp only [Bind.bind, Except.bind, Pure.pure, Except.pure] at h)
    | (dsimp only at h)
    | (obtain ⟨_, _, h⟩ := bindOk h)))
  all_goals try exact Except.noConfusion h
  all_goals injection h with h
  all_goals subst h
  all_goals first
    | exact ⟨rfl, rfl, rfl, rfl, [], (List.append_nil _).symm, by simp⟩
    | exact ⟨rfl, rfl, rfl, rfl, _, rfl, by simp⟩
    | exact ⟨rfl, rfl, rfl, rfl, _, List.append_assoc _ _ _, by simp⟩

theorem rule_item_started_frame (ev : List (String × Json)) (s s' : LoopState)
    (h : rule_item_started ev s = .ok s') :
    s'.model = s.model ∧ s'.input_tokens = s.input_tokens ∧
    s'.output_tokens = s.output_tokens ∧ s'.tool_name_by_id = s.tool_name_by_id ∧
    ∃ δ, s'.log_entries = s.log_entries ++ δ ∧ ∀ l ∈ δ, l.icon ≠ "🤖" := by
  unfold rule_item_started at h
  repeat (any_goals (first
    | (split at h)
    | (dsimp only [Bind.bind, Except.bind, Pure.pure, Except.pure] at h)
    | (dsimp only at h)
    | (obtain ⟨_, _, h⟩ := bindOk h)))
  all_goals try exact Except.noConfusion h
  all_goals injection h with h
  all_goals subst h
  all_goals first
    | exact ⟨rfl, rfl, rfl, rfl, [], (List.append_nil _).symm, by simp⟩
    | exact ⟨rfl, rfl, rfl, rfl, _, rfl, by simp⟩
    | exact ⟨rfl, rfl, rfl, rfl, _, List.append_assoc _ _ _, by simp⟩

theorem rule_item_completed_frame (ev : List (String × Json)) (s s' : LoopState)
    (h : rule_item_completed ev s = .ok s') :
    s'.model = s.model ∧ s'.input_tokens = s.input_tokens ∧
    s'.output_tokens = s.output_tokens ∧ s'.tool_name_by_id = s.tool_name_by_id ∧
    ∃ δ, s'.log_entries = s.log_entries ++ δ ∧ ∀ l ∈ δ, l.icon ≠ "🤖" := by
  unfold rule_item_completed at h
  repeat (any_goals (first
    | (split at h)
    | (dsimp only [Bind.bind, Except.bind, Pure.pure, Except.pure] at h)
    | (dsimp only at h)
    | (obtain ⟨_, _, h⟩ := bindOk h)))
  all_goals try exact Except.noConfusion h
  all_goals injection h with h
  all_goals subst h
  all_goals first
    | exact ⟨rfl, rfl, rfl, rfl, [], (List.append_nil _).symm, by simp⟩
    | exact ⟨rfl, rfl, rfl, rfl, _, rfl, by simp⟩
    | exact ⟨rfl, rfl, rfl, rfl, _, List.append_assoc _ _ _, by simp⟩

theorem rule_tool_use_frame (ev : List (String × Json)) (s s' : LoopState)
    (h : rule_tool_use ev s = .ok s') :
    s'.model = s.model ∧ s'.input_tokens = s.input_tokens ∧
    s'.output_tokens = s.output_tokens ∧
    ∃ δ, s'.log_entries = s.log_entries ++ δ ∧ ∀ l ∈ δ, l.icon ≠ "🤖" := by
  unfold rule_tool_use at h
  repeat (any_goals (first
    | (split at h)
    | (dsimp only [Bind.bind, Except.bind, Pure.pure, Except.pure] at h)
    | (dsimp only at h)
    | (obtain ⟨_, _, h⟩ := bindOk h)))
  all_goals try exact Except.noConfusion h
  all_goals injection h with h
  all_goals subst h
  all_goals first
    | exact ⟨rfl, rfl, rfl, [], (List.append_nil _).symm, by simp⟩
    | exact ⟨rfl, rfl, rfl, _, rfl, by simp⟩
    | exact ⟨rfl, rfl, rfl, _, List.append_assoc _ _ _, by simp⟩

theorem rule_tool_result_frame (ev : List (String × Json)) (s s' : LoopState)
    (h : rule_tool_result ev s = .ok s') :
    s'.model = s.model ∧ s'.input_tokens = s.input_tokens ∧
    s'.output_tokens = s.output_tokens ∧
    ∃ δ, s'.log_entries = s.log_entries ++ δ ∧ ∀ l ∈ δ, l.icon ≠ "🤖" := by
  unfold rule_tool_result at h
  repeat (any_goals (first
    | (split at h)
    | (dsimp only [Bind.bind, Except.bind, Pure.pure, Except.pure] at h)
    | (dsimp only at h)
    | (obtain ⟨_, _, h⟩ := bindOk h)))
  all_goals try exact Except.noConfusion h
  all_goals injection h with h
  all_goals subst h
  all_goals first
    | exact ⟨rfl, rfl, rfl, [], (List.append_nil _).symm, by simp⟩
    | exact ⟨rfl, rfl, rfl, _, rfl, by simp⟩
    | exact ⟨rfl, rfl, rfl, _, List.append_assoc _ _ _, by simp⟩

theorem rule_tool_call_frame (ev : List (String × Json)) (s s' : LoopState)
    (h : rule_tool_call ev s = .ok s') :
    s'.model = s.model ∧ s'.input_tokens = s.input_tokens ∧
    s'.output_tokens = s.output_tokens ∧
    ∃ δ, s'.log_entries = s.log_entries ++ δ ∧ ∀ l ∈ δ, l.icon ≠ "🤖" := by
  unfold rule_tool_call at h
  repeat (any_goals (first
    | (split at h)
    | (dsimp only [Bind.bind, Except.bind, Pure.pure, Except.pure] at h)
    | (dsimp only at h)
    | (obtain ⟨_, _, h⟩ := bindOk h)))
  all_goals try exact Except.noConfusion h
  all_goals injection h with h
  all_goals subst h
  all_goals first
    | exact ⟨rfl, rfl, rfl, [], (List.append_nil _).symm, by simp⟩
    | exact ⟨rfl, rfl, rfl, _, rfl, by simp⟩
    | exact ⟨rfl, rfl, rfl, _, List.append_assoc _ _ _, by simp⟩

theorem assistantItemStep_frame (x : Json) (p q : Json × LoopState)
    (h : assistantItemStep p x = .ok q) :
    q.2.model = p.2.model ∧ q.2.input_tokens = p.2.input_tokens ∧
    q.2.output_tokens = p.2.output_tokens ∧ q.2.tool_name_by_id = p.2.tool_name_by_id ∧
    ∃ δ, q.2.log_entries = p.2.log_entries ++ δ ∧ ∀ l ∈ δ, l.icon ≠ "🤖" := by
  unfold assistantItemStep at h
  repeat (any_goals (first
    | (split at h)
    | (dsimp only [Bind.bind, Except.bind, Pure.pure, Except.pure] at h)
    | (dsimp only at h)
    | (obtain ⟨_, _, h⟩ := bindOk h)))
  all_goals try exact Except.noConfusion h
  all_goals injection h with h
  all_goals subst h
  all_goals first
    | exact ⟨rfl, rfl, rfl, rfl, [], (List.append_nil _).symm, by simp⟩
    | exact ⟨rfl, rfl, rfl, rfl, _, rfl, by simp⟩

theorem assistant_fold_frame (items : List Json) :
    ∀ (p q : Json × LoopState), items.foldlM assistantItemStep p = .ok q →
    q.2.model = p.2.model ∧ q.2.input_tokens = p.2.input_tokens ∧
    q.2.output_tokens = p.2.output_tokens ∧ q.2.tool_name_by_id = p.2.tool_name_by_id ∧
    ∃ δ, q.2.log_entries = p.2.log_entries ++ δ ∧ ∀ l ∈ δ, l.icon ≠ "🤖" := by
  induction items with
  | nil =>
      intro p q h
      cases pureOk (by simpa [List.foldlM] using h)
      exact ⟨rfl, rfl, rfl, rfl, [], (List.append_nil _).symm, by simp⟩
  | cons x xs ih =>
      intro p q h
      obtain ⟨p', hstep, h⟩ := bindOk (by simpa [List.foldlM] using h)
      obtain ⟨hm1, hi1, ho1, hd1, δ1, hl1, hic1⟩ := assistantItemStep_frame x p p' hstep
      obtain ⟨hm2, hi2, ho2, hd2, δ2, hl2, hic2⟩ := ih p' q h
      refine ⟨hm2.trans hm1, hi2.trans hi1, ho2.trans ho1, hd2.trans hd1,
        δ1 ++ δ2, ?_, ?_⟩
      · rw [hl2, hl1, List.append_assoc]
      · intro l hl
        rcases List.mem_append.mp hl with h' | h'
        · exact hic1 l h'
        · exact hic2 l h'

theorem frames_trans {s s1 s2 : LoopState}
    (h1 : s1.model = s.model ∧ s1.input_tokens = s.input_tokens ∧
      s1.output_tokens = s.output_tokens ∧ s1.tool_name_by_id = s.tool_name_by_id ∧
      ∃ δ, s1.log_entries = s.log_entries ++ δ ∧ ∀ l ∈ δ, l.icon ≠ "🤖")
    (h2 : s2.model = s1.model ∧ s2.input_tokens = s1.input_tokens ∧
      s2.output_tokens = s1.output_tokens ∧ s2.tool_name_by_id = s1.tool_name_by_id ∧
      ∃ δ, s2.log_entries = s1.log_entries ++ δ ∧ ∀ l ∈ δ, l.icon ≠ "🤖") :
    s2.model = s.model ∧ s2.input_tokens = s.input_tokens ∧
    s2.output_tokens = s.output_tokens ∧ s2.tool_name_by_id = s.tool_name_by_id ∧
    ∃ δ, s2.log_entries = s.log_entries ++ δ ∧ ∀ l ∈ δ, l.icon ≠ "🤖" := by
  obtain ⟨hm1, hi1, ho1, hd1, δ1, hl1, hic1⟩ := h1
  obtain ⟨hm2, hi2, ho2, hd2, δ2, hl2, hic2⟩ := h2
  refine ⟨hm2.trans hm1, hi2.trans hi1, ho2.trans ho1, hd2.trans hd1, δ1 ++ δ2, ?_, ?_⟩
  · rw [hl2, hl1, List.append_assoc]
  · intro l hl
    rcases List.mem_append.mp hl with h' | h'
    · exact hic1 l h'
    · exact hic2 l h'

theorem assistantLogText_frame (content : Json) (s s' : LoopState)
    (h : assistantLogText content s = .ok s') :
    s'.model = s.model ∧ s'.input_tokens = s.input_tokens ∧
    s'.output_tokens = s.output_tokens ∧ s'.tool_name_by_id = s.tool_name_by_id ∧
    ∃ δ, s'.log_entries = s.log_entries ++ δ ∧ ∀ l ∈ δ, l.icon ≠ "🤖" := by
  unfold assistantLogText at h
  repeat (any_goals (first
    | (split at h)
    | (dsimp only [Bind.bind, Except.bind, Pure.pure, Except.pure] at h)
    | (dsimp only at h)
    | (obtain ⟨_, _, h⟩ := bindOk h)))
  all_goals try exact Except.noConfusion h
  all_goals injection h with h
  all_goals subst h
  all_goals first
    | exact ⟨rfl, rfl, rfl, rfl, [], (List.append_nil _).symm, by simp⟩
    | exact ⟨rfl, rfl, rfl, rfl, _, rfl, by simp⟩

theorem rule_assistant_frame (ev : List (String × Json)) (s s' : LoopState)
    (h : rule_assistant ev s = .ok s') :
    s'.model = s.model ∧ s'.input_tokens = s.input_tokens ∧
    s'.output_tokens = s.output_tokens ∧ s'.tool_name_by_id = s.tool_name_by_id ∧
    ∃ δ, s'.log_entries = s.log_entries ++ δ ∧ ∀ l ∈ δ, l.icon ≠ "🤖" := by
  have idf : ∀ t : LoopState, t.model = t.model ∧ t.input_tokens = t.input_tokens ∧
      t.output_tokens = t.output_tokens ∧ t.tool_name_by_id = t.tool_name_by_id ∧
      ∃ δ, t.log_entries = t.log_entries ++ δ ∧ ∀ l ∈ δ, l.icon ≠ "🤖" :=
    fun t => ⟨rfl, rfl, rfl, rfl, [], (List.append_nil _).symm, by simp⟩
  unfold rule_assistant at h
  dsimp only at h
  split at h
  case isFalse =>
    cases pureOk h
    exact idf s
  case isTrue =>
    obtain ⟨hasC, _, h⟩ := bindOk h
    repeat (any_goals (first
      | (split at h)
      | (dsimp only [Bind.bind, Except.bind, Pure.pure, Except.pure] at h)
      | (dsimp only at h)))
    all_goals try exact Except.noConfusion h
    all_goals try exact assistantLogText_frame _ _ _ h
    all_goals rename_i w hfold
    all_goals obtain ⟨content, s1⟩ := w
    all_goals refine @frames_trans s s1 s' (assistant_fold_frame _ _ _ hfold) ?_
    all_goals exact assistantLogText_frame _ _ _ h

/-- Invert one `handle_event` run into its per-rule steps (in source
order). -/
theorem handle_event_ok_chain (ev : List (String × Json)) (s s' : LoopState)
    (h : handle_event (.obj ev) s = .ok s') :
    ∃ s3 s4 s5 s6 s7 s8 s9 s10 s12 s14 s16 s17 s18 s19,
    rule_message ev (rule_system ev (rule_init ev s)) = .ok s3 ∧
    rule_assistant ev s3 = .ok s4 ∧
    rule_tool_use ev s4 = .ok s5 ∧
    rule_content_block_start ev s5 = .ok s6 ∧
    rule_tool_result ev s6 = .ok s7 ∧
    rule_usage ev s7 = .ok s8 ∧
    rule_stats ev s8 = .ok s9 ∧
    rule_result ev s9 = .ok s10 ∧
    rule_thread_started ev (rule_error ev s10) = .ok s12 ∧
    rule_turn_completed ev (rule_turn_started ev s12) = .ok s14 ∧
    rule_item_started ev (rule_turn_failed ev s14) = .ok s16 ∧
    rule_item_completed ev s16 = .ok s17 ∧
    rule_tool_call ev s17 = .ok s18 ∧
    rule_thinking ev s18 = .ok s19 ∧
    s' = rule_interaction_query ev s19 := by
  unfold handle_event at h
  dsimp only at h
  obtain ⟨s3, h3, h⟩ := bindOk h
  obtain ⟨s4, h4, h⟩ := bindOk h
  obtain ⟨s5, h5, h⟩ := bindOk h
  obtain ⟨s6, h6, h⟩ := bindOk h
  obtain ⟨s7, h7, h⟩ := bindOk h
  obtain ⟨s8, h8, h⟩ := bindOk h
  obtain ⟨s9, h9, h⟩ := bindOk h
  obtain ⟨s10, h10, h⟩ := bindOk h
  obtain ⟨s12, h12, h⟩ := bindOk h
  obtain ⟨s14, h14, h⟩ := bindOk h
  obtain ⟨s16, h16, h⟩ := bindOk h
  obtain ⟨s17, h17, h⟩ := bindOk h
  obtain ⟨s18, h18, h⟩ := bindOk h
  obtain ⟨s19, h19, h⟩ := bindOk h
  exact ⟨s3, s4, s5, s6, s7, s8, s9, s10, s12, s14, s16, s17, s18, s19,
    h3, h4, h5, h6, h7, h8, h9, h10, h12, h14, h16, h17, h18, h19, (pureOk h).symm⟩

/-- "`model` and the 🤖-log relation": from `base` to `t`, the model field
is unchanged and the log only grew by non-model entries. -/
def ModelLogRel (base t : LoopState) : Prop :=
  t.model = base.model ∧
  ∃ δ, t.log_entries = base.log_entries ++ δ ∧ ∀ l ∈ δ, l.icon ≠ "🤖"

theorem mlrel_trans {a b c : LoopState} (h1 : ModelLogRel a b) (h2 : ModelLogRel b c) :
    ModelLogRel a c := by
  obtain ⟨hm1, δ1, hl1, hic1⟩ := h1
  obtain ⟨hm2, δ2, hl2, hic2⟩ := h2
  refine ⟨hm2.trans hm1, δ1 ++ δ2, ?_, ?_⟩
  · rw [hl2, hl1, List.append_assoc]
  · intro l hl
    rcases List.mem_append.mp hl with h' | h'
    · exact hic1 l h'
    · exact hic2 l h'

/-- Every rule after `rule_init` preserves `model` and appends only
non-🤖 log entries: composition along the `handle_event` chain. -/
theorem chain_mlrel (ev : List (String × Json)) (s s' : LoopState)
    (h : handle_event (.obj ev) s = .ok s') :
    ModelLogRel (rule_init ev s) s' := by
  obtain ⟨s3, s4, s5, s6, s7, s8, s9, s10, s12, s14, s16, s17, s18, s19,
    h3, h4, h5, h6, h7, h8, h9, h10, h12, h14, h16, h17, h18, h19, hfin⟩ :=
    handle_event_ok_chain ev s s' h
  have r2 : ModelLogRel (rule_init ev s) (rule_system ev (rule_init ev s)) := by
    obtain ⟨hm, -, -, -, -, hlog⟩ := rule_system_frame ev (rule_init ev s)
    exact ⟨hm, hlog⟩
  have r3 : ModelLogRel (rule_system ev (rule_init ev s)) s3 := by
    obtain ⟨hm, -, -, -, -, hlog⟩ := rule_message_frame ev _ s3 h3
    exact ⟨hm, hlog⟩
  have r4 : ModelLogRel s3 s4 := by
    obtain ⟨hm, -, -, -, hlog⟩ := rule_assistant_frame ev s3 s4 h4
    exact ⟨hm, hlog⟩
  have r5 : ModelLogRel s4 s5 := by
    obtain ⟨hm, -, -, hlog⟩ := rule_tool_use_frame ev s4 s5 h5
    exact ⟨hm, hlog⟩
  have r6 : ModelLogRel s5 s6 := by
    obtain ⟨hm, -, -, -, hlog⟩ := rule_content_block_start_frame ev s5 s6 h6
    exact ⟨hm, hlog⟩
  have r7 : ModelLogRel s6 s7 := by
    obtain ⟨hm, -, -, hlog⟩ := rule_tool_result_frame ev s6 s7 h7
    exact ⟨hm, hlog⟩
  have r8 : ModelLogRel s7 s8 := by
    obtain ⟨hm, -, -, hlog⟩ := rule_usage_frame ev s7 s8 h8
    exact ⟨hm, hlog⟩
  have r9 : ModelLogRel s8 s9 := by
    obtain ⟨hm, -, -, hlog⟩ := rule_stats_frame ev s8 s9 h9
    exact ⟨hm, hlog⟩
  have r10 : ModelLogRel s9 s10 := by
    obtain ⟨hm, -, -, hlog⟩ := rule_result_frame ev s9 s10 h10
    exact ⟨hm, hlog⟩
  have r11 : ModelLogRel s10 (rule_error ev s10) := by
    obtain ⟨hm, -, -, -, -, hlog⟩ := rule_error_frame ev s10
    exact ⟨hm, hlog⟩
  have r12 : ModelLogRel (rule_error ev s10) s12 := by
    obtain ⟨hm, -, -, -, -, hlog⟩ := rule_thread_started_frame ev _ s12 h12
    exact ⟨hm, hlog⟩
  have r13 : ModelLogRel s12 (rule_turn_started ev s12) := by
    obtain ⟨hm, -, -, -, -, hlog⟩ := rule_turn_started_frame ev s12
    exact ⟨hm, hlog⟩
  have r14 : ModelLogRel (rule_turn_started ev s12) s14 := by
    obtain ⟨hm, -, -, hlog⟩ := rule_turn_completed_frame ev _ s14 h14
    exact ⟨hm, hlog⟩
  have r15 : ModelLogRel s14 (rule_turn_failed ev s14) := by
    obtain ⟨hm, -, -, -, -, hlog⟩ := rule_turn_failed_frame ev s14
    exact ⟨hm, hlog⟩
  have r16 : ModelLogRel (rule_turn_failed ev s14) s16 := by
    obtain ⟨hm, -, -, -, hlog⟩ := rule_item_started_frame ev _ s16 h16
    exact ⟨hm, hlog⟩
  have r17 : ModelLogRel s16 s17 := by
    obtain ⟨hm, -, -, -, hlog⟩ := rule_item_completed_frame ev s16 s17 h17
    exact ⟨hm, hlog⟩
  have r18 : ModelLogRel s17 s18 := by
    obtain ⟨hm, -, -, hlog⟩ := rule_tool_call_frame ev s17 s18 h18
    exact ⟨hm, hlog⟩
  have r19 : ModelLogRel s18 s19 := by
    obtain ⟨hm, -, -, -, -, hlog⟩ := rule_thinking_frame ev s18 s19 h19
    exact ⟨hm, hlog⟩
  have r20 : ModelLogRel s19 s' := by
    obtain ⟨hm, -, -, -, -, hlog⟩ := rule_interaction_query_frame ev s19
    rw [hfin]
    exact ⟨hm, hlog⟩
  exact mlrel_trans r2 (mlrel_trans r3 (mlrel_trans r4 (mlrel_trans r5 (mlrel_trans r6
    (mlrel_trans r7 (mlrel_trans r8 (mlrel_trans r9 (mlrel_trans r10 (mlrel_trans r11
    (mlrel_trans r12 (mlrel_trans r13 (mlrel_trans r14 (mlrel_trans r15 (mlrel_trans r16
    (mlrel_trans r17 (mlrel_trans r18 (mlrel_trans r19 r20)))))))))))))))))

/-- C10: for every event classified as init (`type == "init"` or carrying a
`session_id` key), `handle_event` unconditionally overwrites `state.model`
with the event's `"model"` value (`None` when the key is absent — so a
previously recorded model is reset), and a 🤖 model log entry is appended
exactly when the new value is truthy (non-empty). -/
theorem c10_init_overwrites_model (ev : List (String × Json)) (s s' : LoopState)
    (hg : (isType ev "init" || objHas ev "session_id") = true)
    (h : handle_event (.obj ev) s = .ok s') :
    s'.model = objGetD ev "model" Json.null ∧
    ∃ δ, s'.log_entries = s.log_entries ++ δ ∧
      (truthy (objGetD ev "model" Json.null) = true →
        (⟨"🤖", "cyan", "Model: " ++ pyStr (objGetD ev "model" Json.null),
          Json.str ""⟩ : LogEntry) ∈ δ) ∧
      (truthy (objGetD ev "model" Json.null) = false → ∀ l ∈ δ, l.icon ≠ "🤖") := by
  obtain ⟨hm, δr, hlr, hicr⟩ := chain_mlrel ev s s' h
  by_cases ht : truthy (objGetD ev "model" Json.null) = true
  · have hI : rule_init ev s =
        ({ s with session_id := objGetD ev "session_id" (objGetD ev "sessionId" .null),
                  model := objGetD ev "model" .null }).add_log "🤖" "cyan"
          ("Model: " ++ pyStr (objGetD ev "model" Json.null)) := by
      unfold rule_init
      simp [hg, ht]
    rw [hI] at hm hlr
    refine ⟨hm, ⟨"🤖", "cyan", "Model: " ++ pyStr (objGetD ev "model" Json.null),
      Json.str ""⟩ :: δr, ?_, fun _ => by simp, fun hf => by rw [ht] at hf; cases hf⟩
    simpa [LoopState.add_log] using hlr
  · have ht' : truthy (objGetD ev "model" Json.null) = false := by
      revert ht
      cases truthy (objGetD ev "model" Json.null) <;> simp
    have hI : rule_init ev s =
        { s with session_id := objGetD ev "session_id" (objGetD ev "sessionId" .null),
                 model := objGetD ev "model" .null } := by
      unfold rule_init
      simp [hg, ht']
    rw [hI] at hm hlr
    refine ⟨hm, δr, hlr, ?_, fun _ => hicr⟩
    intro hf
    rw [hf] at ht'
    exact absurd ht' (by simp)

/-- Witness for C10 at a concrete init event. -/
theorem c10_witness :
    ∃ s', handle_event (Json.obj [("type", Json.str "init"), ("model", Json.str "m2")])
        { model := Json.str "m1" } = .ok s' ∧ s'.model = Json.str "m2" := by
  obtain ⟨s', hs'⟩ :
      ∃ s', handle_event (Json.obj [("type", Json.str "init"), ("model", Json.str "m2")])
        { model := Json.str "m1" } = .ok s' := ⟨_, rfl⟩
  have hc := c10_init_overwrites_model _ _ _ (by decide) hs'
  exact ⟨s', hs', hc.1.trans rfl⟩

/-! ## Token-count behavior of the usage/stats/result/turn.completed rules -/

theorem applyTokensFrom_eval (src : Json) (s : LoopState) :
    applyTokensFrom src s =
      match src with
      | .obj kvs => .ok { s with
          input_tokens := objGetD kvs "input_tokens" s.input_tokens,
          output_tokens := objGetD kvs "output_tokens" s.output_tokens }
      | _ => .error "AttributeError: get" := by
  cases src <;> rfl

/-- A `usage`/`stats` value with no token fields leaves the state
untouched. -/
theorem applyTokensFrom_preserve (src : Json) (s s' : LoopState)
    (hl : lacksTokenKeys src = true) (h : applyTokensFrom src s = .ok s') : s' = s := by
  rw [applyTokensFrom_eval] at h
  cases src with
  | obj kvs =>
      dsimp only at h
      have h1 : objLookup? kvs "input_tokens" = none := by
        cases hx : objLookup? kvs "input_tokens" with
        | none => rfl
        | some v => simp [lacksTokenKeys, objHas, hx] at hl
      have h2 : objLookup? kvs "output_tokens" = none := by
        cases hx : objLookup? kvs "output_tokens" with
        | none => rfl
        | some v => simp [lacksTokenKeys, objHas, hx] at hl
      rw [show objGetD kvs "input_tokens" s.input_tokens = s.input_tokens from by
          simp [objGetD, h1],
        show objGetD kvs "output_tokens" s.output_tokens = s.output_tokens from by
          simp [objGetD, h2]] at h
      injection h with h
      exact h.symm
  | null => exact Except.noConfusion h
  | bool b => exact Except.noConfusion h
  | num q => exact Except.noConfusion h
  | nan => exact Except.noConfusion h
  | inf n => exact Except.noConfusion h
  | str t => exact Except.noConfusion h
  | arr xs => exact Except.noConfusion h

theorem rule_usage_preserve (ev : List (String × Json)) (s s' : LoopState)
    (hl : lacksTokenKeys (objGetD ev "usage" (.obj [])) = true)
    (h : rule_usage ev s = .ok s') : s' = s := by
  unfold rule_usage at h
  split at h
  · exact applyTokensFrom_preserve _ _ _ hl h
  · exact (pureOk h).symm

theorem rule_stats_preserve (ev : List (String × Json)) (s s' : LoopState)
    (hl : lacksTokenKeys (objGetD ev "stats" (.obj [])) = true)
    (h : rule_stats ev s = .ok s') : s' = s := by
  unfold rule_stats at h
  split at h
  · exact applyTokensFrom_preserve _ _ _ hl h
  · exact (pureOk h).symm

theorem rule_result_tokens_preserve (ev : List (String × Json)) (s s' : LoopState)
    (h1 : lacksTokenKeys (objGetD ev "usage" (.obj [])) = true)
    (h2 : lacksTokenKeys (objGetD ev "stats" (.obj [])) = true)
    (h : rule_result ev s = .ok s') :
    s'.input_tokens = s.input_tokens ∧ s'.output_tokens = s.output_tokens := by
  unfold rule_result at h
  split at h
  case isFalse => cases pureOk h; exact ⟨rfl, rfl⟩
  case isTrue =>
    dsimp only at h
    repeat (any_goals (first
      | (split at h)
      | (dsimp only [Bind.bind, Except.bind, Pure.pure, Except.pure, pySliceTake] at h)
      | (dsimp only at h)))
    all_goals try exact Except.noConfusion h
    all_goals injection h with h
    all_goals subst h
    all_goals rename (applyTokensFrom (objGetD ev "usage" (Json.obj [])) _ = Except.ok _) => hu
    all_goals rename (applyTokensFrom (objGetD ev "stats" (Json.obj [])) _ = Except.ok _) => hst
    all_goals rw [applyTokensFrom_preserve _ _ _ h2 hst, applyTokensFrom_preserve _ _ _ h1 hu]
    all_goals exact ⟨rfl, rfl⟩

theorem rule_turn_completed_tokens_preserve (ev : List (String × Json)) (s s' : LoopState)
    (h1 : lacksTokenKeys (objGetD ev "usage" (.obj [])) = true)
    (h : rule_turn_completed ev s = .ok s') :
    s'.input_tokens = s.input_tokens ∧ s'.output_tokens = s.output_tokens := by
  unfold rule_turn_completed at h
  split at h
  case isFalse => cases pureOk h; exact ⟨rfl, rfl⟩
  case isTrue =>
    dsimp only at h
    repeat (any_goals (first
      | (split at h)
      | (dsimp only [Bind.bind, Except.bind, Pure.pure, Except.pure] at h)
      | (dsimp only at h)))
    all_goals try exact Except.noConfusion h
    all_goals injection h with h
    all_goals subst h
    all_goals rename (applyTokensFrom (objGetD ev "usage" (Json.obj [])) _ = Except.ok _) => hu
    all_goals rw [applyTokensFrom_preserve _ _ _ h1 hu]
    all_goals exact ⟨rfl, rfl⟩

/-- C3 (counterexample): token counts are NOT monotonic.  A first event
reports `input_tokens = 100`; a later event reporting `input_tokens = 50`
overwrites the count downwards — the count decreases from one event to the
next, contradicting the claim. -/
theorem c3_counterexample :
    ∃ s1 s2,
      handle_event (Json.obj [("usage", Json.obj [("input_tokens", Json.num 100)])])
        {} = .ok s1 ∧
      handle_event (Json.obj [("usage", Json.obj [("input_tokens", Json.num 50)])])
        s1 = .ok s2 ∧
      s1.input_tokens = Json.num 100 ∧ s2.input_tokens = Json.num 50 ∧
      (50 : ℚ) < 100 := by
  exact ⟨_, _, rfl, rfl, rfl, rfl, by norm_num⟩

/-- C3 (amended): token counts are overwritten with whatever value a
usage/stats field reports (so they can decrease, see the counterexample);
what does hold is the claim's second half: an event whose `usage`/`stats`
objects lack the token fields (or that has no `usage`/`stats` object at
all) never changes — in particular never zeroes — a previously set
count. -/
theorem c3_missing_token_fields_preserve_counts (ev : List (String × Json)) (s s' : LoopState)
    (hl : eventLacksTokenFields ev = true)
    (h : handle_event (.obj ev) s = .ok s') :
    s'.input_tokens = s.input_tokens ∧ s'.output_tokens = s.output_tokens := by
  obtain ⟨hl1, hl2⟩ : lacksTokenKeys (objGetD ev "usage" (.obj [])) = true ∧
      lacksTokenKeys (objGetD ev "stats" (.obj [])) = true := by
    simpa [eventLacksTokenFields, Bool.and_eq_true] using hl
  obtain ⟨s3, s4, s5, s6, s7, s8, s9, s10, s12, s14, s16, s17, s18, s19,
    h3, h4, h5, h6, h7, h8, h9, h10, h12, h14, h16, h17, h18, h19, hfin⟩ :=
    handle_event_ok_chain ev s s' h
  obtain ⟨i0, o0, -, -, -⟩ := rule_init_frame ev s
  obtain ⟨-, i1, o1, -, -, -⟩ := rule_system_frame ev (rule_init ev s)
  obtain ⟨-, i2, o2, -, -, -⟩ := rule_message_frame ev _ s3 h3
  obtain ⟨-, i3, o3, -, -⟩ := rule_assistant_frame ev s3 s4 h4
  obtain ⟨-, i4, o4, -⟩ := rule_tool_use_frame ev s4 s5 h5
  obtain ⟨-, i5, o5, -, -⟩ := rule_content_block_start_frame ev s5 s6 h6
  obtain ⟨-, i6, o6, -⟩ := rule_tool_result_frame ev s6 s7 h7
  cases rule_usage_preserve ev s7 s8 hl1 h8
  cases rule_stats_preserve ev s7 s9 hl2 h9
  obtain ⟨i9, o9⟩ := rule_result_tokens_preserve ev s7 s10 hl1 hl2 h10
  obtain ⟨-, i10, o10, -, -, -⟩ := rule_error_frame ev s10
  obtain ⟨-, i11, o11, -, -, -⟩ := rule_thread_started_frame ev _ s12 h12
  obtain ⟨-, i12, o12, -, -, -⟩ := rule_turn_started_frame ev s12
  obtain ⟨i13, o13⟩ := rule_turn_completed_tokens_preserve ev _ s14 hl1 h14
  obtain ⟨-, i14, o14, -, -, -⟩ := rule_turn_failed_frame ev s14
  obtain ⟨-, i15, o15, -, -⟩ := rule_item_started_frame ev _ s16 h16
  obtain ⟨-, i16, o16, -, -⟩ := rule_item_completed_frame ev s16 s17 h17
  obtain ⟨-, i17, o17, -⟩ := rule_tool_call_frame ev s17 s18 h18
  obtain ⟨-, i18, o18, -, -, -⟩ := rule_thinking_frame ev s18 s19 h19
  obtain ⟨-, i19, o19, -, -, -⟩ := rule_interaction_query_frame ev s19
  rw [hfin]
  constructor
  · exact i19.trans (i18.trans (i17.trans (i16.trans (i15.trans (i14.trans (i13.trans
      (i12.trans (i11.trans (i10.trans (i9.trans (i6.trans (i5.trans (i4.trans
      (i3.trans (i2.trans (i1.trans i0))))))))))))))))
  · exact o19.trans (o18.trans (o17.trans (o16.trans (o15.trans (o14.trans (o13.trans
      (o12.trans (o11.trans (o10.trans (o9.trans (o6.trans (o5.trans (o4.trans
      (o3.trans (o2.trans (o1.trans o0))))))))))))))))

/-- Witness for the amended C3 at a concrete event whose `usage` object has
no token fields: previously set counts survive. -/
theorem c3_witness :
    ∃ s', handle_event (Json.obj [("usage", Json.obj [("cached_input_tokens", Json.num 3)])])
        { input_tokens := Json.num 7, output_tokens := Json.num 9 } = .ok s' ∧
      s'.input_tokens = Json.num 7 ∧ s'.output_tokens = Json.num 9 := by
  obtain ⟨s', hs'⟩ :
      ∃ s', handle_event (Json.obj [("usage", Json.obj [("cached_input_tokens", Json.num 3)])])
        { input_tokens := Json.num 7, output_tokens := Json.num 9 } = .ok s' := ⟨_, rfl⟩
  have hc := c3_missing_token_fields_preserve_counts _ _ _ (by decide) hs'
  exact ⟨s', hs', hc.1.trans rfl, hc.2.trans rfl⟩

theorem applyTokensFrom_sets (kvs : List (String × Json)) (s : LoopState) (a b : Json)
    (ha : objLookup? kvs "input_tokens" = some a)
    (hb : objLookup? kvs "output_tokens" = some b) :
    applyTokensFrom (.obj kvs) s = .ok { s with input_tokens := a, output_tokens := b } := by
  rw [applyTokensFrom_eval]
  dsimp only
  rw [show objGetD kvs "input_tokens" s.input_tokens = a from by simp [objGetD, ha],
    show objGetD kvs "output_tokens" s.output_tokens = b from by simp [objGetD, hb]]

theorem rule_stats_sets (ev : List (String × Json)) (s : LoopState)
    (st : List (String × Json)) (c d : Json)
    (hst : objLookup? ev "stats" = some (.obj st))
    (hc : objLookup? st "input_tokens" = some c)
    (hd : objLookup? st "output_tokens" = some d) :
    rule_stats ev s = .ok { s with input_tokens := c, output_tokens := d } := by
  unfold rule_stats
  have h1 : objHas ev "stats" = true := by simp [objHas, hst]
  have h2 : objGetD ev "stats" (.obj []) = .obj st := by simp [objGetD, hst]
  simp only [h1, if_true, h2]
  exact applyTokensFrom_sets st s c d hc hd

/-- When a `result` event carries a `stats` object with both token fields,
the rule's final token counts are the stats values (applied after, and
overwriting, the usage values). -/
theorem rule_result_tokens_sets (ev : List (String × Json)) (s s' : LoopState)
    (st : List (String × Json)) (c d : Json)
    (hres : isType ev "result" = true)
    (hst : objLookup? ev "stats" = some (.obj st))
    (hc : objLookup? st "input_tokens" = some c)
    (hd : objLookup? st "output_tokens" = some d)
    (h : rule_result ev s = .ok s') :
    s'.input_tokens = c ∧ s'.output_tokens = d := by
  unfold rule_result at h
  rw [hres] at h
  simp only [if_true] at h
  repeat (any_goals (first
    | (split at h)
    | (dsimp only [Bind.bind, Except.bind, Pure.pure, Except.pure, pySliceTake] at h)
    | (dsimp only at h)))
  all_goals try exact Except.noConfusion h
  all_goals injection h with h
  all_goals subst h
  all_goals rename (applyTokensFrom (objGetD ev "stats" (Json.obj [])) _ = Except.ok _) => hs2
  all_goals rw [show objGetD ev "stats" (Json.obj []) = Json.obj st from by
    simp [objGetD, hst]] at hs2
  all_goals rw [applyTokensFrom_sets st _ c d hc hd] at hs2
  all_goals injection hs2 with hs2
  all_goals rw [← hs2]
  all_goals exact ⟨rfl, rfl⟩

/-- C2 (counterexample): when `usage` and `stats` both carry token fields
in one event, the final counts are the STATS values, not the usage values
the claim names (`usage.input_tokens = 5` but the state ends at `7`). -/
theorem c2_counterexample :
    ∃ s', handle_event (Json.obj [
        ("usage", Json.obj [("input_tokens", Json.num 5), ("output_tokens", Json.num 11)]),
        ("stats", Json.obj [("input_tokens", Json.num 7), ("output_tokens", Json.num 13)])])
        {} = .ok s' ∧
      s'.input_tokens = Json.num 7 ∧ s'.output_tokens = Json.num 13 ∧
      Json.num 7 ≠ Json.num 5 ∧ Json.num 13 ≠ Json.num 11 :=
  ⟨_, rfl, rfl, rfl, by decide, by decide⟩

/-- C2 (amended): for every event line containing both a `usage` object and
a `stats` object each carrying `input_tokens`/`output_tokens`, the state's
counts after normalization equal the values from the STATS object — the
stats update runs after the usage update and overwrites it — except for
`turn.completed` events, whose handler re-applies the usage values last
(excluded by hypothesis here). -/
theorem c2_stats_preferred_over_usage (ev : List (String × Json)) (s s' : LoopState)
    (u st : List (String × Json)) (a b c d : Json)
    (hu : objLookup? ev "usage" = some (.obj u))
    (hua : objLookup? u "input_tokens" = some a)
    (hub : objLookup? u "output_tokens" = some b)
    (hst : objLookup? ev "stats" = some (.obj st))
    (hsc : objLookup? st "input_tokens" = some c)
    (hsd : objLookup? st "output_tokens" = some d)
    (ht : isType ev "turn.completed" = false)
    (h : handle_event (.obj ev) s = .ok s') :
    s'.input_tokens = c ∧ s'.output_tokens = d := by
  obtain ⟨s3, s4, s5, s6, s7, s8, s9, s10, s12, s14, s16, s17, s18, s19,
    h3, h4, h5, h6, h7, h8, h9, h10, h12, h14, h16, h17, h18, h19, hfin⟩ :=
    handle_event_ok_chain ev s s' h
  -- after the stats rule the counts are exactly (c, d)
  rw [rule_stats_sets ev s8 st c d hst hsc hsd] at h9
  injection h9 with h9
  -- after the result rule they are still (c, d)
  have hres : s10.input_tokens = c ∧ s10.output_tokens = d := by
    by_cases hr : isType ev "result" = true
    · exact rule_result_tokens_sets ev s9 s10 st c d hr hst hsc hsd h10
    · rw [rule_result_skip ev s9 (by revert hr; cases isType ev "result" <;> simp)] at h10
      injection h10 with h10
      rw [← h10, ← h9]
      exact ⟨rfl, rfl⟩
  obtain ⟨i9, o9⟩ := hres
  -- the turn.completed rule is skipped by hypothesis
  rw [rule_turn_completed_skip ev (rule_turn_started ev s12) ht] at h14
  injection h14 with h14
  -- everything after preserves the counts
  obtain ⟨-, i10, o10, -, -, -⟩ := rule_error_frame ev s10
  obtain ⟨-, i11, o11, -, -, -⟩ := rule_thread_started_frame ev _ s12 h12
  obtain ⟨-, i12, o12, -, -, -⟩ := rule_turn_started_frame ev s12
  obtain ⟨-, i14, o14, -, -, -⟩ := rule_turn_failed_frame ev s14
  obtain ⟨-, i15, o15, -, -⟩ := rule_item_started_frame ev _ s16 h16
  obtain ⟨-, i16, o16, -, -⟩ := rule_item_completed_frame ev s16 s17 h17
  obtain ⟨-, i17, o17, -⟩ := rule_tool_call_frame ev s17 s18 h18
  obtain ⟨-, i18, o18, -, -, -⟩ := rule_thinking_frame ev s18 s19 h19
  obtain ⟨-, i19, o19, -, -, -⟩ := rule_interaction_query_frame ev s19
  rw [hfin]
  have e14 : s14.input_tokens = s12.input_tokens ∧ s14.output_tokens = s12.output_tokens := by
    rw [← h14]
    exact ⟨i12, o12⟩
  constructor
  · exact i19.trans (i18.trans (i17.trans (i16.trans (i15.trans (i14.trans (e14.1.trans
      (i11.trans (i10.trans i9))))))))
  · exact o19.trans (o18.trans (o17.trans (o16.trans (o15.trans (o14.trans (e14.2.trans
      (o11.trans (o10.trans o9))))))))

/-- Witness for the amended C2 at a concrete event carrying both objects. -/
theorem c2_witness :
    ∃ s', handle_event (Json.obj [
        ("usage", Json.obj [("input_tokens", Json.num 5), ("output_tokens", Json.num 11)]),
        ("stats", Json.obj [("input_tokens", Json.num 7), ("output_tokens", Json.num 13)])])
        {} = .ok s' ∧ s'.input_tokens = Json.num 7 ∧ s'.output_tokens = Json.num 13 := by
  obtain ⟨s', hs'⟩ :
      ∃ s', handle_event (Json.obj [
        ("usage", Json.obj [("input_tokens", Json.num 5), ("output_tokens", Json.num 11)]),
        ("stats", Json.obj [("input_tokens", Json.num 7), ("output_tokens", Json.num 13)])])
        {} = .ok s' := ⟨_, rfl⟩
  have hc := c2_stats_preferred_over_usage
    [("usage", Json.obj [("input_tokens", Json.num 5), ("output_tokens", Json.num 11)]),
     ("stats", Json.obj [("input_tokens", Json.num 7), ("output_tokens", Json.num 13)])]
    {} s'
    [("input_tokens", Json.num 5), ("output_tokens", Json.num 11)]
    [("input_tokens", Json.num 7), ("output_tokens", Json.num 13)]
    (Json.num 5) (Json.num 11) (Json.num 7) (Json.num 13)
    rfl rfl rfl rfl rfl rfl (by decide) hs'
  exact ⟨s', hs', hc.1, hc.2⟩

/-- C7: for thinking-delta, Gemini assistant-message, and assistant-content
events, a resolved text of length ≤ 10 produces no assistant/reasoning log
entry, and a longer text produces exactly one entry with a 300-character
preview. -/
theorem c7_short_text_suppressed (t : String) (s : LoopState) :
    handle_event (Json.obj [("type", Json.str "thinking"), ("subtype", Json.str "delta"),
      ("text", Json.str t)]) s =
      .ok (if 10 < t.length then
        s.add_log "💭" "magenta" "Reasoning" (Json.str (t.take 300)) else s) ∧
    handle_event (Json.obj [("type", Json.str "message"), ("role", Json.str "assistant"),
      ("content", Json.str t)]) s =
      .ok (if 10 < t.length then
        s.add_log "💬" "white" "Assistant" (Json.str (t.take 300)) else s) ∧
    handle_event (Json.obj [("type", Json.str "assistant"),
      ("message", Json.obj [("content", Json.str t)])]) s =
      .ok (if 10 < t.length then
        s.add_log "💬" "white" "Assistant" (Json.str (t.take 300)) else s) ∧
    handle_event (Json.obj [("type", Json.str "content_block_delta"),
      ("delta", Json.obj [("type", Json.str "text_delta"), ("text", Json.str t)])]) s =
      .ok (if 10 < t.length then
        s.add_log "💬" "white" "Assistant" (Json.str (t.take 300)) else s) := by
  by_cases ht0 : t = ""
  · subst ht0
    exact ⟨rfl, rfl, rfl, rfl⟩
  · have htr : truthy (Json.str t) = true := by simp [truthy, ht0]
    by_cases hl : 10 < t.length
    · refine ⟨?_, ?_, ?_, ?_⟩ <;>
        simp [handle_event, rule_init, rule_system, rule_message, rule_assistant,
          assistantLogText, assistantItemStep, rule_tool_use, rule_content_block_start,
          rule_tool_result, rule_usage, rule_stats, rule_result, rule_error,
          rule_thread_started, rule_turn_started, rule_turn_completed, rule_turn_failed,
          rule_item_started, rule_item_completed, rule_tool_call, rule_thinking,
          rule_interaction_query, isType, objGetD, objLookup?, objHas, pyEq, pyOr,
          truthy, pyLen, pySliceTake, pyInKey, eventToolId, htr, hl, ht0,
          Json.getD, Json.getN, List.foldlM,
          Bind.bind, Except.bind, Pure.pure, Except.pure]
    · refine ⟨?_, ?_, ?_, ?_⟩ <;>
        simp [handle_event, rule_init, rule_system, rule_message, rule_assistant,
          assistantLogText, assistantItemStep, rule_tool_use, rule_content_block_start,
          rule_tool_result, rule_usage, rule_stats, rule_result, rule_error,
          rule_thread_started, rule_turn_started, rule_turn_completed, rule_turn_failed,
          rule_item_started, rule_item_completed, rule_tool_call, rule_thinking,
          rule_interaction_query, isType, objGetD, objLookup?, objHas, pyEq, pyOr,
          truthy, pyLen, pySliceTake, pyInKey, eventToolId, htr, hl, ht0,
          Json.getD, Json.getN, List.foldlM,
          Bind.bind, Except.bind, Pure.pure, Except.pure]

theorem pyEq_str_str (a b : String) : pyEq (Json.str a) (Json.str b) = (a == b) := rfl

theorem pyEq_null_str (t : String) : pyEq Json.null (Json.str t) = false := rfl

theorem truthy_null : truthy Json.null = false := rfl

theorem truthy_bool (b : Bool) : truthy (Json.bool b) = b := rfl

theorem truthy_str (t : String) : truthy (Json.str t) = (t != "") := rfl

theorem truthy_obj (kvs : List (String × Json)) : truthy (Json.obj kvs) = !kvs.isEmpty := rfl

/-- C5: a `tool_use` event carrying a (truthy, hashable) call identifier,
followed by a `tool_result` event with the same identifier (`==`-equal, as
Python's dict lookup requires), processed against a state with an empty
pending map, leaves the pending map empty and the current tool cleared. -/
theorem c5_tool_pair_clears_pending (i nm : Json) (s : LoopState)
    (hmap : s.tool_name_by_id = [])
    (hti : truthy i = true) (hhi : hashable i = true) (hrefl : pyEq i i = true) :
    ∃ s1 s2,
      handle_event (Json.obj [("type", Json.str "tool_use"), ("id", i), ("name", nm)]) s
        = .ok s1 ∧
      handle_event (Json.obj [("type", Json.str "tool_result"), ("id", i)]) s1 = .ok s2 ∧
      s2.tool_name_by_id = [] ∧ s2.current_tool = Json.null := by
  have hnm : truthy (pyOr nm (pyOr Json.null (pyOr Json.null (Json.str "unknown")))) = true := by
    by_cases h : truthy nm = true
    · simp [pyOr, h]
    · have h' : truthy nm = false := by revert h; cases truthy nm <;> simp
      unfold pyOr
      rw [h']
      simp [truthy]
  refine ⟨{ s with
      tool_name_by_id := [(i, pyOr nm (pyOr Json.null (pyOr Json.null (Json.str "unknown"))))],
      current_tool := pyOr nm (pyOr Json.null (pyOr Json.null (Json.str "unknown"))),
      log_entries := s.log_entries ++ [⟨"🔧", "yellow",
        "Tool: " ++ pyStr (pyOr nm (pyOr Json.null (pyOr Json.null (Json.str "unknown")))),
        Json.str ""⟩] },
    { s with
      tool_name_by_id := [],
      current_tool := Json.null,
      log_entries := s.log_entries ++ [⟨"🔧", "yellow",
        "Tool: " ++ pyStr (pyOr nm (pyOr Json.null (pyOr Json.null (Json.str "unknown")))),
        Json.str ""⟩,
        ⟨"✓", "green",
        "Tool Result: " ++ pyStr (pyOr nm (pyOr Json.null (pyOr Json.null (Json.str "unknown")))),
        Json.str ""⟩] },
    ?_, ?_, rfl, rfl⟩
  · simp [handle_event, rule_init, rule_system, rule_message, rule_assistant,
      assistantLogText, assistantItemStep, rule_tool_use, rule_content_block_start,
      rule_tool_result, rule_usage, rule_stats, rule_result, rule_error,
      rule_thread_started, rule_turn_started, rule_turn_completed, rule_turn_failed,
      rule_item_started, rule_item_completed, rule_tool_call, rule_thinking,
      rule_interaction_query, isType, objGetD, objLookup?, objHas,
      pyEq_str_str, pyEq_null_str, truthy_null, truthy_bool, truthy_str, truthy_obj,
      pyLen, pySliceTake, pyInKey, eventToolId, Json.getD, Json.getN,
      dictSet, dictGet?, dictPop, List.find?, hmap, hti, hhi, hrefl, hnm,
      LoopState.add_log, LoopState.mk.injEq, List.append_assoc, List.cons_append,
      List.singleton_append, List.append_nil,
      Bind.bind, Except.bind, Pure.pure, Except.pure]
  · simp [handle_event, rule_init, rule_system, rule_message, rule_assistant,
      assistantLogText, assistantItemStep, rule_tool_use, rule_content_block_start,
      rule_tool_result, rule_usage, rule_stats, rule_result, rule_error,
      rule_thread_started, rule_turn_started, rule_turn_completed, rule_turn_failed,
      rule_item_started, rule_item_completed, rule_tool_call, rule_thinking,
      rule_interaction_query, isType, objGetD, objLookup?, objHas,
      pyEq_str_str, pyEq_null_str, truthy_null, truthy_bool, truthy_str, truthy_obj,
      pyLen, pySliceTake, pyInKey, eventToolId, Json.getD, Json.getN,
      dictSet, dictGet?, dictPop, List.find?, hmap, hti, hhi, hrefl, hnm,
      LoopState.add_log, LoopState.mk.injEq, List.append_assoc, List.cons_append,
      List.singleton_append, List.append_nil,
      Bind.bind, Except.bind, Pure.pure, Except.pure]

/-- Witness for C5 at a concrete tool pair. -/
theorem c5_witness :
    ∃ s1 s2,
      handle_event (Json.obj [("type", Json.str "tool_use"), ("id", Json.str "7"),
        ("name", Json.str "bash")]) {} = .ok s1 ∧
      handle_event (Json.obj [("type", Json.str "tool_result"), ("id", Json.str "7")]) s1
        = .ok s2 ∧
      s2.tool_name_by_id = [] ∧ s2.current_tool = Json.null :=
  c5_tool_pair_clears_pending (Json.str "7") (Json.str "bash") {} rfl (by decide) (by decide)
    (by decide)

theorem dictPop_of_get_none (d : List (Json × Json)) (k : Json)
    (h : dictGet? d k = none) : dictPop d k = d := by
  induction d with
  | nil => rfl
  | cons p rest ih =>
      rcases p with ⟨k0, v0⟩
      by_cases he : pyEq k0 k = true
      · exfalso
        simp [dictGet?, List.find?, he] at h
      · have he' : pyEq k0 k = false := by revert he; cases pyEq k0 k <;> simp
        have h' : dictGet? rest k = none := by
          simpa [dictGet?, List.find?, he'] using h
        simp [dictPop, he', ih h']

/-- C6: the line `{"type":"tool_result","id":"42","output":"ok"}` against a
state with no pending entry for id "42" and no current tool resolves the
tool name to "unknown" and appends a success (✓, green) entry — no
exception, no error entry. -/
theorem c6_orphan_tool_result_is_success (s : LoopState)
    (hmap : dictGet? s.tool_name_by_id (Json.str "42") = none)
    (hct : s.current_tool = Json.null) :
    process_line "\x7b\"type\":\"tool_result\",\"id\":\"42\",\"output\":\"ok\"\x7d" s =
      .ok { s with
        current_tool := Json.null,
        log_entries := s.log_entries ++
          [⟨"✓", "green", "Tool Result: unknown", Json.str "ok"⟩] } := by
  have hp : parse_json_event "\x7b\"type\":\"tool_result\",\"id\":\"42\",\"output\":\"ok\"\x7d"
      = some (Json.obj [("type", Json.str "tool_result"), ("id", Json.str "42"),
        ("output", Json.str "ok")]) := rfl
  unfold process_line
  rw [hp]
  have hpop : dictPop s.tool_name_by_id (Json.str "42") = s.tool_name_by_id :=
    dictPop_of_get_none _ _ hmap
  have hmapu : List.find? (fun p => pyEq p.1 (Json.str "42")) s.tool_name_by_id = none := by
    revert hmap
    unfold dictGet?
    cases List.find? (fun p => pyEq p.1 (Json.str "42")) s.tool_name_by_id <;> simp
  have htake : ("ok".take 150) = "ok" := rfl
  simp [handle_event, rule_init, rule_system, rule_message, rule_assistant,
    assistantLogText, assistantItemStep, rule_tool_use, rule_content_block_start,
    rule_tool_result, rule_usage, rule_stats, rule_result, rule_error,
    rule_thread_started, rule_turn_started, rule_turn_completed, rule_turn_failed,
    rule_item_started, rule_item_completed, rule_tool_call, rule_thinking,
    rule_interaction_query, isType, objGetD, objLookup?, objHas,
    pyEq_str_str, pyEq_null_str, truthy_null, truthy_bool, truthy_str, truthy_obj,
    pyLen, pySliceTake, pyInKey, eventToolId, Json.getD, Json.getN,
    dictSet, dictGet?, dictPop, hmapu, hct, hpop, pyStr, htake,
    LoopState.add_log, LoopState.mk.injEq, List.append_assoc, List.cons_append,
    List.singleton_append, List.append_nil, hashable,
    Bind.bind, Except.bind, Pure.pure, Except.pure]

/-- Witness for C6 at the fresh initial state. -/
theorem c6_witness :
    process_line "\x7b\"type\":\"tool_result\",\"id\":\"42\",\"output\":\"ok\"\x7d" {} =
      .ok { current_tool := Json.null,
            log_entries := [⟨"✓", "green", "Tool Result: unknown", Json.str "ok"⟩] } := by
  have h := c6_orphan_tool_result_is_success {} rfl rfl
  exact h.trans rfl

/-- C4 (counterexample): the bare line
`{"fileWriteCall":{"args":{"path":"a.txt"},"result":"done"}}` matches no
handler at all — processing it changes nothing (no tool name is inferred,
no log entry appended), contradicting the claim that the normalizer infers
"fileWrite" from it. -/
theorem c4_counterexample :
    process_line
      "\x7b\"fileWriteCall\":\x7b\"args\":\x7b\"path\":\"a.txt\"\x7d,\"result\":\"done\"\x7d\x7d"
      {} = .ok ({} : LoopState) := rfl

/-- C4 (amended): the single-key suffix-stripping inference applies to the
`tool_call` payload of a `"type":"tool_call"` event, not to a bare line:
`extract_cursor_tool_call` on that object yields tool name "fileWrite"
(trailing "Call" stripped) with the nested `args`/`result` payload, and a
started `tool_call` event wrapping it logs `Tool: fileWrite` and sets the
current tool. -/
theorem c4_payload_suffix_stripping :
    extract_cursor_tool_call (Json.obj [("fileWriteCall",
        Json.obj [("args", Json.obj [("path", Json.str "a.txt")]),
          ("result", Json.str "done")])]) =
      .ok (Json.str "fileWrite", Json.obj [("path", Json.str "a.txt")], Json.str "done") ∧
    handle_event (Json.obj [("type", Json.str "tool_call"), ("subtype", Json.str "started"),
        ("tool_call", Json.obj [("fileWriteCall",
          Json.obj [("args", Json.obj [("path", Json.str "a.txt")]),
            ("result", Json.str "done")])])]) {} =
      .ok { current_tool := Json.str "fileWrite",
            log_entries := [⟨"🔧", "yellow", "Tool: fileWrite",
              Json.str "\x7b\x27path\x27: \x27a.txt\x27\x7d"⟩] } := by
  refine ⟨rfl, ?_⟩
  have hps : pyStr (Json.obj [("path", Json.str "a.txt")])
      = "\x7b\x27path\x27: \x27a.txt\x27\x7d" := by
    simp [pyStr, pyRepr, pyReprObj, pyReprList, pyEscape, String.intercalate]
    rfl
  have htake : (("\x7b\x27path\x27: \x27a.txt\x27\x7d" : String).take 150)
      = "\x7b\x27path\x27: \x27a.txt\x27\x7d" := rfl
  have hstrip : stripToolSuffix "fileWriteCall" = "fileWrite" := rfl
  simp [handle_event, rule_init, rule_system, rule_message, rule_assistant,
    assistantLogText, assistantItemStep, rule_tool_use, rule_content_block_start,
    rule_tool_result, rule_usage, rule_stats, rule_result, rule_error,
    rule_thread_started, rule_turn_started, rule_turn_completed, rule_turn_failed,
    rule_item_started, rule_item_completed, rule_tool_call, rule_thinking,
    rule_interaction_query, extract_cursor_tool_call, hstrip,
    isType, objGetD, objLookup?, objHas, truthy, pyEq, pyOr, hashable,
    pyLen, pySliceTake, pyInKey, eventToolId, Json.getD, Json.getN,
    dictSet, dictGet?, dictPop, hps, htake, pyStr,
    LoopState.add_log, Bind.bind, Except.bind, Pure.pure, Except.pure]

/-- C1 (counterexample): a whitespace-only line is non-empty and not valid
JSON, yet produces NO raw-output log entry (the source checks
`line.strip()` before logging), contradicting "every such non-empty line
results in exactly one raw-output log entry". -/
theorem c1_counterexample :
    "   " ≠ "" ∧ parse_json_event "   " = none ∧
    process_line "   " {} = .ok ({} : LoopState) :=
  ⟨by decide, rfl, rfl⟩

/-- C1 (amended): processing a line that does not parse as JSON never
raises; it appends exactly one raw-output (📝) log entry with a
200-character preview when the line is non-blank (non-empty after
stripping), and nothing otherwise. -/
theorem c1_malformed_line_logged_raw (line : String) (s : LoopState)
    (h : parse_json_event line = none) :
    process_line line s =
      .ok (if pyStrip line ≠ "" then
        s.add_log "📝" "dim" "Output" (.str ((pyStrip line).take 200)) else s) := by
  unfold process_line
  rw [h]
  by_cases hc : pyStrip line ≠ ""
  · simp [hc]
  · simp [hc]

/-- Witness for the amended C1 at a concrete non-JSON line. -/
theorem c1_witness :
    process_line " oops " {} =
      .ok (({} : LoopState).add_log "📝" "dim" "Output" (.str "oops")) :=
  (c1_malformed_line_logged_raw " oops " {} rfl).trans rfl

/-- C8: with `max_iterations = 3`, every iteration succeeding and the STOP
marker never appearing, the loop runs exactly three iterations (counter ends
at 3) and terminates — for any remaining fuel — logging that max iterations
was reached. -/
theorem c8_max_iterations_three (k : Nat) :
    ralphLoop (k + 4) { max_iterations := 3 } (fun _ => false) (fun _ => true) =
      some { iteration := 3, max_iterations := 3, stop_file := false,
             logs := ["Starting iteration 1", "Iteration 1 complete",
                      "Starting iteration 2", "Iteration 2 complete",
                      "Starting iteration 3", "Iteration 3 complete",
                      "Reached max iterations: 3"],
             status := some .maxReached } := by
  simp [ralphLoop]
  refine ⟨rfl, rfl, rfl, rfl, rfl, rfl, rfl⟩

/-- C9: a STOP marker present at an iteration boundary (left from the
previous turn or just observed) ends the loop at once: no further iteration
starts (the counter is unchanged), the marker is deleted, and the status
records the stop signal.  And a stale marker at startup is deleted before
the loop begins. -/
theorem c9_stop_marker_halts (fuel : Nat) (c d : CtrlState) (so oc : Nat → Bool)
    (h : (c.stop_file || so c.iteration) = true) :
    ralphLoop (fuel + 1) c so oc =
      some { c with stop_file := false,
                    logs := c.logs ++ ["Stop signal detected - exiting loop"],
                    status := some .stopSignal } ∧
    (ralphStartup d).stop_file = false := by
  constructor
  · simp [ralphLoop, h]
  · unfold ralphStartup
    split <;> simp_all

/-- Witness for C9 at a concrete stopped state. -/
theorem c9_witness :
    ralphLoop 1 { stop_file := true } (fun _ => false) (fun _ => true) =
      some { stop_file := false,
             logs := ["Stop signal detected - exiting loop"],
             status := some .stopSignal } ∧
    (ralphStartup { stop_file := true }).stop_file = false :=
  c9_stop_marker_halts 0 { stop_file := true } { stop_file := true }
    (fun _ => false) (fun _ => true) rfl
